import Mathlib

/-!
Shallow embedding of the StoryCraft / Narrative Illustrator client-side
generation workflow (src/App.tsx and the page components), for checking the
natural-language specification against the code.

The repository contains two iterations of the application joined in
`src/App.tsx`:
* variant 1 ("Narrative Illustrator AI", `handleGenerateCharacterDesigns`,
  `handleGenerateVisualStory`), and
* variant 2 ("StoryCraft AI", `handleGenerateAllCharacterDesigns`,
  `handleRegenerateSingleCharacterDesign`, `handleApproveCharacterDesign`,
  `handleGenerateStoryboard`, `handleStorySubmitted`).

React state (`useState`) is modelled by explicit state records threaded through
each handler.  A `setX` call becomes a record update; a functional update
`setX(prev => f prev)` reads the current threaded state; a *plain* read of a
state variable inside an async callback reads the value captured when the
callback was created (the invocation-time state), exactly as the JavaScript
closures do.  AI-service calls (`services/geminiService.ts`) are suspension
points: their outcomes are supplied by oracle parameters
(`Except String String` = resolved value / thrown error message), and every
issued call is recorded in a `GatewayCall` list.  `generateId()` (a random
string) is modelled as an injective fresh-id supply `0, 1, 2, …` (Nat ids).
JavaScript string truthiness (`undefined` and `""` are falsy) is modelled by
`truthy : Option String → Bool`.
-/

/-- JavaScript truthiness for optional string fields: `undefined`/`null` and
the empty string are falsy. -/
def truthy : Option String → Bool
  | none => false
  | some s => s != ""

/-- JavaScript `a || b` on strings: the fallback is used when `a` is empty. -/
def orFallback (a b : String) : String :=
  if a = "" then b else a

/-- `hay.includes(needle)` on JavaScript strings. -/
def strContains (hay needle : String) : Bool :=
  hay.data.tails.any (fun t => needle.data.isPrefixOf t)

/-- A JavaScript-whitespace character (the characters relevant to this code
base; JS `trim` strips all Unicode whitespace, the model covers the ASCII
ones). -/
def jsWhitespace (c : Char) : Bool :=
  c == ' ' || c == '\t' || c == '\n' || c == '\r'

/-- JavaScript `String.prototype.trim`: strip whitespace from both ends
(defined over the character list so that it evaluates by reduction). -/
def jsTrim (s : String) : String :=
  String.mk (((s.data.dropWhile jsWhitespace).reverse.dropWhile jsWhitespace).reverse)

/-- Textual descriptor fields of a Character (union of the fields used by the
two iterations: `types.ts` variant 1 has appearance/attire/props, the second
iteration's pages use the richer field set). -/
inductive TextField
  | name | appearance | attire | props
  | description | gender | age | hairColor | eyeColor | build
  | personalityTraits | clothingStyle | distinguishingFeatures | habitsMannerisms
deriving DecidableEq, Repr

/-- `Character` from `types.ts`, with the design-workflow sub-state.  Variant 2
of App.tsx calls the design slots `generatedDesignImageUrl` /
`approvedDesignImageUrl`; they play exactly the role of `generatedDesignUrl` /
`approvedDesignUrl` of `types.ts` and are modelled by the same two fields. -/
structure Character where
  id : Nat
  name : String := ""
  appearance : String := ""
  attire : String := ""
  props : String := ""
  description : String := ""
  gender : String := ""
  age : String := ""
  hairColor : String := ""
  eyeColor : String := ""
  build : String := ""
  personalityTraits : String := ""
  clothingStyle : String := ""
  distinguishingFeatures : String := ""
  habitsMannerisms : String := ""
  isAiExtracted : Bool := false
  generatedDesignUrl : Option String := none
  approvedDesignUrl : Option String := none
  isDesignLoading : Bool := false
  designError : Option String := none
deriving DecidableEq, Repr

/-- Write one textual field of a character (`newChars[index][field] = value`). -/
def setTextField (f : TextField) (v : String) (c : Character) : Character :=
  match f with
  | .name => { c with name := v }
  | .appearance => { c with appearance := v }
  | .attire => { c with attire := v }
  | .props => { c with props := v }
  | .description => { c with description := v }
  | .gender => { c with gender := v }
  | .age => { c with age := v }
  | .hairColor => { c with hairColor := v }
  | .eyeColor => { c with eyeColor := v }
  | .build => { c with build := v }
  | .personalityTraits => { c with personalityTraits := v }
  | .clothingStyle => { c with clothingStyle := v }
  | .distinguishingFeatures => { c with distinguishingFeatures := v }
  | .habitsMannerisms => { c with habitsMannerisms := v }

/-- `Scene` from `types.ts`. -/
structure Scene where
  id : Nat
  sceneSummary : String := ""
  charactersInScene : List String := []
  settingDescription : String := ""
  actionDescription : String := ""
  emotionalBeat : String := ""
  imagePrompt : String := ""
  imageUrl : Option String := none
  imageError : Option String := none
deriving DecidableEq, Repr

/-- `GeminiSceneResponse` from `types.ts`: one scene of the deconstruction
response (carries no id). -/
structure SceneResponse where
  sceneSummary : String := ""
  charactersInScene : List String := []
  settingDescription : String := ""
  actionDescription : String := ""
  emotionalBeat : String := ""
  imagePrompt : String := ""
deriving DecidableEq, Repr

/-- The descriptive core of a materialized scene, used to state that scene
order and content are never re-ranked. -/
def Scene.core (s : Scene) : SceneResponse :=
  { sceneSummary := s.sceneSummary
    charactersInScene := s.charactersInScene
    settingDescription := s.settingDescription
    actionDescription := s.actionDescription
    emotionalBeat := s.emotionalBeat
    imagePrompt := s.imagePrompt }

/-- `ReferenceImagePart.inlineData` from `types.ts`. -/
structure ReferenceImagePart where
  mimeType : String
  data : String
deriving DecidableEq, Repr

/-- One AI-service call issued by the workflow (the AIGateway operations). -/
inductive GatewayCall
  | extractCharacters (story : String)
  | generateCharacterDesign (charId : Nat)
  | deconstructStory (story : String)
  | generateSceneImage (prompt : String) (refs : List ReferenceImagePart)
deriving DecidableEq, Repr

/-- `GenerationPhase` from `types.ts` (the enum the first App variant uses). -/
inductive GenerationPhase
  | IDLE | AWAITING_CHARACTER_INPUT | GENERATING_CHARACTER_DESIGNS
  | AWAITING_CHARACTER_APPROVAL | DECONSTRUCTING_STORY
  | GENERATING_SCENE_IMAGES | COMPLETE | ERROR
deriving DecidableEq, Repr

/-- `OperationStatus` of the second App variant. -/
inductive OperationStatus
  | IDLE | LOADING | SUCCESS | ERROR
deriving DecidableEq, Repr

/-- `AppView` of the second App variant. -/
inductive AppView
  | welcome | storyInput | characterDefinition | globalPreferences
  | characterDesignReview | storyboardDisplay
deriving DecidableEq, Repr

/-- `MAX_CHARACTERS` from `constants.ts`. -/
def MAX_CHARACTERS : Nat := 5

/-! ## Data-URL parsing (`getBase64FromDataUrl` and the mime-type match)

The source matches the regexes over data URLs
(`^data:image\/[^;]+;base64,(.+)` for the payload and
`^data:(image\/[^;]+);base64,` for the mime type).  Both require the literal
prefix `data:image/`, then one or more non-semicolon characters (the rest of
the mime type — a negated class, so it may span newlines), then the literal
`;base64,`.  The payload capture `(.+)` (with the default flags, `.` does not
match a newline) is the non-empty remainder of the first line after the
comma. -/

/-- Strip an exact character-list prefix. -/
def dropPrefixList : List Char → List Char → Option (List Char)
  | [], s => some s
  | _, [] => none
  | p :: ps, c :: cs => if p = c then dropPrefixList ps cs else none

/-- Parse the `data:image/<subtype>;base64,` header of a data URL; returns the
full mime type and the raw remainder after the comma. -/
def dataUrlHeader (u : String) : Option (String × List Char) :=
  match dropPrefixList "data:image/".data u.data with
  | none => none
  | some rest =>
    let sub := rest.takeWhile (fun c => c ≠ ';')
    if sub.isEmpty then none
    else
      match dropPrefixList ";base64,".data (rest.drop sub.length) with
      | none => none
      | some payload => some ("image/" ++ String.mk sub, payload)

/-- `getBase64FromDataUrl` from App.tsx: the capture of
`^data:image\/[^;]+;base64,(.+)`, `null` when the regex does not match. -/
def getBase64FromDataUrl (u : String) : Option String :=
  match dataUrlHeader u with
  | none => none
  | some (_, payload) =>
    let firstLine := payload.takeWhile (fun c => c ≠ '\n')
    if firstLine.isEmpty then none else some (String.mk firstLine)

/-- The mime-type capture of `^data:(image\/[^;]+);base64,`. -/
def mimeFromDataUrl (u : String) : Option String :=
  (dataUrlHeader u).map Prod.fst

/-! ## Reference-image resolution (scene-image loop preamble) -/

/-- Variant 1, App.tsx: for each name in `charactersInScene`, find the first
character with that exact name and a truthy `approvedDesignUrl`; extract the
base64 payload; the mime type defaults to `image/jpeg` when its regex does not
match. -/
def resolveRefsV1 (chars : List Character) (names : List String) :
    List ReferenceImagePart :=
  (names.map (fun n =>
    match chars.find? (fun c => c.name == n && truthy c.approvedDesignUrl) with
    | none => []
    | some cd =>
      match cd.approvedDesignUrl with
      | none => []
      | some url =>
        match getBase64FromDataUrl url with
        | none => []
        | some b64 =>
          [{ mimeType := (mimeFromDataUrl url).getD "image/jpeg", data := b64 }])).flatten

/-- Variant 2, App.tsx (`handleGenerateStoryboard`): same lookup, but the entry
is pushed only when both the base64 payload and the mime-type match succeed. -/
def resolveRefsV2 (chars : List Character) (names : List String) :
    List ReferenceImagePart :=
  (names.map (fun n =>
    match chars.find? (fun c => c.name == n && truthy c.approvedDesignUrl) with
    | none => []
    | some cd =>
      match cd.approvedDesignUrl with
      | none => []
      | some url =>
        match getBase64FromDataUrl url, mimeFromDataUrl url with
        | some b64, some mt => [{ mimeType := mt, data := b64 }]
        | _, _ => [])).flatten

/-! ## approveCharacterDesign (variant 2 `handleApproveCharacterDesign`) -/

/-- The per-character body of `handleApproveCharacterDesign`: the character
with the given id whose `generatedDesignImageUrl` is truthy has that URL moved
to `approvedDesignImageUrl`, with the generated slot, the design error and the
loading flag cleared; every other character is untouched. -/
def approveElem (characterId : Nat) (c : Character) : Character :=
  if c.id == characterId && truthy c.generatedDesignUrl then
    { c with approvedDesignUrl := c.generatedDesignUrl,
             generatedDesignUrl := none, designError := none,
             isDesignLoading := false }
  else c

/-- `handleApproveCharacterDesign`: map `approveElem` over the characters.
Pure: the empty gateway-call list records that no AI call is made. -/
def handleApproveCharacterDesign (characterId : Nat) (cs : List Character) :
    List Character × List GatewayCall :=
  (cs.map (approveElem characterId), [])

/-! ## Character-design batches -/

/-- The per-character pre-call update of both batch handlers, applied to one
list element: mark the character as loading and clear its previous
error/generated design. -/
def markElem (cid : Nat) (c : Character) : Character :=
  if c.id == cid then
    { c with isDesignLoading := true, designError := none,
             generatedDesignUrl := none }
  else c

/-- Mark the character with the given id as loading
(`setCharacters(prev => prev.map(...))`). -/
def markDesignLoading (cid : Nat) (cs : List Character) : List Character :=
  cs.map (markElem cid)

/-- The per-character post-call update of both batch handlers, applied to one
list element: on success store the generated design URL; on failure store
`err.message || 'Unknown error'`; clear the loading flag in either case. -/
def settleElem (cid : Nat) (r : Except String String) (c : Character) :
    Character :=
  if c.id == cid then
    match r with
    | .ok url => { c with generatedDesignUrl := some url, isDesignLoading := false }
    | .error m => { c with designError := some (orFallback m "Unknown error"),
                           isDesignLoading := false }
  else c

/-- Apply one design-call outcome to the character with the given id
(`setCharacters(prev => prev.map(...))`). -/
def applyDesignResult (cid : Nat) (r : Except String String)
    (cs : List Character) : List Character :=
  cs.map (settleElem cid r)

/-- App state of variant 1 ("Narrative Illustrator AI"). -/
structure AppState1 where
  storyText : String := ""
  characters : List Character := []
  scenes : List Scene := []
  currentPhase : GenerationPhase := .IDLE
  loadingMessage : String := ""
  error : Option String := none
deriving DecidableEq, Repr

/-- Variant 1 selection (`handleGenerateCharacterDesigns`): named characters
without a truthy approved design. -/
def selectionV1 (cs : List Character) : List Character :=
  cs.filter (fun c => jsTrim c.name != "" && !truthy c.approvedDesignUrl)

/-- `handleGenerateCharacterDesigns` (variant 1).  The `charactersToProcess.map
(async char => …)` runs every async closure synchronously up to its first
await, so all the `markDesignLoading` updates land (in selection order) and all
the `generateCharacterSheetImage` calls are initiated before `Promise.all`
suspends; the per-character results are then applied in the order the promises
settle, given here as `completionOrder` (a permutation of the selected ids;
each settlement applies only its own character's update). -/
def handleGenerateCharacterDesigns (s0 : AppState1)
    (oracle : Nat → Except String String) (completionOrder : List Nat) :
    AppState1 × List GatewayCall :=
  if s0.currentPhase == .ERROR then (s0, [])
  else
    let s1 := { s0 with error := none,
                        currentPhase := .GENERATING_CHARACTER_DESIGNS,
                        loadingMessage := "Generating character designs..." }
    let charactersToProcess := selectionV1 s0.characters
    if charactersToProcess.isEmpty then
      ({ s1 with
          loadingMessage := "All named characters already have approved designs or no characters defined to design.",
          currentPhase := .AWAITING_CHARACTER_APPROVAL }, [])
    else
      let marked := (charactersToProcess.map (fun c => c.id)).foldl
        (fun acc cid => markDesignLoading cid acc) s1.characters
      let settled := completionOrder.foldl
        (fun acc cid => applyDesignResult cid (oracle cid) acc) marked
      ({ s1 with characters := settled,
                 loadingMessage := "Character designs generated. Please review and approve.",
                 currentPhase := .AWAITING_CHARACTER_APPROVAL },
       charactersToProcess.map (fun c => GatewayCall.generateCharacterDesign c.id))

/-- App state of variant 2 ("StoryCraft AI"). -/
structure AppState2 where
  currentView : AppView := .welcome
  storyText : String := ""
  characters : List Character := []
  scenes : List Scene := []
  operationStatus : OperationStatus := .IDLE
  loadingMessage : String := ""
  globalError : Option String := none
deriving DecidableEq, Repr

/-- The guard `operationStatus === OperationStatus.ERROR &&
globalError?.includes("API Key")` used by every variant-2 handler. -/
def apiKeyErrorActive (s : AppState2) : Bool :=
  s.operationStatus == .ERROR &&
    (match s.globalError with
     | some m => strContains m "API Key"
     | none => false)

/-- `handleError` (variant 2). -/
def handleError (msg : String) (s : AppState2) : AppState2 :=
  { s with globalError := some msg, operationStatus := .ERROR,
           loadingMessage := "" }

/-- The one-shot marking update of `handleGenerateAllCharacterDesigns`,
applied to one list element: a character that occurs (by id) in the selection
is marked loading with its error and generated design cleared. -/
def markSelElem (sel : List Character) (c : Character) : Character :=
  if (sel.find? (fun ctd => ctd.id == c.id)).isSome then
    { c with isDesignLoading := true, designError := none,
             generatedDesignUrl := none }
  else c

/-- `setCharacters(prev => prev.map(c => charsToDesign.find(...) ? ... : c))`:
mark the whole selection as loading in one update. -/
def markSelection (sel : List Character) (cs : List Character) :
    List Character :=
  cs.map (markSelElem sel)

/-- Variant 2 default selection (`handleGenerateAllCharacterDesigns` without an
override): named characters without a truthy approved design that are not
currently loading. -/
def selectionV2 (cs : List Character) : List Character :=
  cs.filter (fun c =>
    jsTrim c.name != "" && !truthy c.approvedDesignUrl && !c.isDesignLoading)

/-- The sequential `for (const char of charsToDesign)` loop of
`handleGenerateAllCharacterDesigns`: skip unnamed characters, otherwise await
one design call and apply its result (via a functional state update) before
starting the next. -/
def designLoopV2 (oracle : Nat → Except String String) :
    List Character → List Character → List GatewayCall →
    List Character × List GatewayCall
  | [], cs, calls => (cs, calls)
  | char :: rest, cs, calls =>
    if jsTrim char.name == "" then designLoopV2 oracle rest cs calls
    else
      designLoopV2 oracle rest (applyDesignResult char.id (oracle char.id) cs)
        (calls ++ [GatewayCall.generateCharacterDesign char.id])

/-- `handleGenerateAllCharacterDesigns` (variant 2): select (or take the
override), mark the whole selection as loading in one update, then process the
selection sequentially. -/
def handleGenerateAllCharacterDesigns (s0 : AppState2)
    (override : Option (List Character))
    (oracle : Nat → Except String String) : AppState2 × List GatewayCall :=
  if apiKeyErrorActive s0 then (s0, [])
  else
    let charsToDesign := override.getD (selectionV2 s0.characters)
    if charsToDesign.isEmpty then
      ({ s0 with loadingMessage := "No characters need design generation at this time." }, [])
    else
      let s1 := { s0 with globalError := none, operationStatus := .LOADING }
      let cs1 := markSelection charsToDesign s1.characters
      let (cs2, calls) := designLoopV2 oracle charsToDesign cs1 []
      ({ s1 with characters := cs2, operationStatus := .IDLE,
                 loadingMessage := "Character designs updated. Please review." }, calls)

/-- Result of `handleRegenerateSingleCharacterDesign`, with the characters
state at the instant the design call is issued (after the pre-call clearing
update, before the AI call resolves). -/
structure RegenResult where
  preCallCharacters : List Character
  calls : List GatewayCall
  finalState : AppState2
deriving DecidableEq, Repr

/-- `handleRegenerateSingleCharacterDesign` (variant 2): for an existing,
named character, clear its generated design, approved design and error and set
it loading, then issue the design call; on failure record the error; the
`finally` block always returns the status to idle. -/
def handleRegenerateSingleCharacterDesign (s0 : AppState2) (characterId : Nat)
    (oracle : Except String String) : RegenResult :=
  if apiKeyErrorActive s0 then ⟨s0.characters, [], s0⟩
  else
    match s0.characters.find? (fun c => c.id == characterId) with
    | none => ⟨s0.characters, [], s0⟩
    | some charToDesign =>
      if jsTrim charToDesign.name == "" then ⟨s0.characters, [], s0⟩
      else
        let cs1 := s0.characters.map (fun c =>
          if c.id == characterId then
            { c with isDesignLoading := true, designError := none,
                     generatedDesignUrl := none, approvedDesignUrl := none }
          else c)
        let cs2 :=
          match oracle with
          | .ok url => cs1.map (fun c =>
              if c.id == characterId then
                { c with generatedDesignUrl := some url, isDesignLoading := false }
              else c)
          | .error m => cs1.map (fun c =>
              if c.id == characterId then
                { c with designError := some (orFallback m "Unknown error"),
                         isDesignLoading := false }
              else c)
        ⟨cs1, [GatewayCall.generateCharacterDesign characterId],
         { s0 with globalError := none, characters := cs2,
                   operationStatus := .IDLE,
                   loadingMessage := "Character design updated." }⟩

/-! ## Storyboard generation -/

/-- Materialize the deconstruction response: `deconstructed.scenes.map(s =>
({ ...s, id: generateId() }))`, with the fresh-id supply `0, 1, 2, …` in
response order. -/
def materializeScenes (rs : List SceneResponse) : List Scene :=
  (List.range rs.length).zip rs |>.map (fun p =>
    { id := p.1
      sceneSummary := p.2.sceneSummary
      charactersInScene := p.2.charactersInScene
      settingDescription := p.2.settingDescription
      actionDescription := p.2.actionDescription
      emotionalBeat := p.2.emotionalBeat
      imagePrompt := p.2.imagePrompt })

/-- The progressive `setScenes(prev => …)` update of both scene loops: find the
index of the just-processed scene's id in the current list and replace that
slot with the matching entry of the accumulated `updatedScenes` (falling back
to the existing entry when no match is found). -/
def progressiveUpdate (updated : List Scene) (sid : Nat) (prev : List Scene) :
    List Scene :=
  match prev.findIdx? (fun sc => sc.id == sid) with
  | none => prev
  | some ix =>
    match prev.get? ix with
    | none => prev
    | some old => prev.set ix ((updated.find? (fun us => us.id == sid)).getD old)

/-- Settle one scene of the variant-1 loop: on success set `imageUrl`, on
failure set `imageError` to the formatted message (the oracle is keyed by the
scene's id, which equals its position in the timeline). -/
def settleSceneV1 (oracle : Nat → Except String String) (scene : Scene) : Scene :=
  match oracle scene.id with
  | .ok u => { scene with imageUrl := some u }
  | .error m =>
    { scene with imageUrl := none,
                 imageError := some ("Failed to generate image: " ++ orFallback m "Unknown error") }

/-- Settle one scene of the variant-2 loop: on success set `imageUrl`, on
failure set `imageError` to `e.message || 'Image generation failed'`
(`imageUrl` is left unset). -/
def settleSceneV2 (oracle : Nat → Except String String) (scene : Scene) : Scene :=
  match oracle scene.id with
  | .ok u => { scene with imageUrl := some u }
  | .error m => { scene with imageError := some (orFallback m "Image generation failed") }

/-- The sequential scene-image loop shared (up to the settle function and the
reference resolver) by `handleGenerateVisualStory` and
`handleGenerateStoryboard`: for each pending scene in order, resolve the
reference images, issue the image call, append the settled scene to
`updatedScenes`, and publish the progressive update before the next scene.
Returns (updatedScenes, current published list, issued calls, every published
snapshot). -/
def sceneLoop (settle : Scene → Scene)
    (resolve : List String → List ReferenceImagePart) :
    List Scene → List Scene → List Scene → List GatewayCall →
    List (List Scene) →
    List Scene × List Scene × List GatewayCall × List (List Scene)
  | [], done, cur, calls, pubs => (done, cur, calls, pubs)
  | scene :: rest, done, cur, calls, pubs =>
    let refs := resolve scene.charactersInScene
    let upd := settle scene
    let done2 := done ++ [upd]
    let cur2 := progressiveUpdate done2 scene.id cur
    sceneLoop settle resolve rest done2 cur2
      (calls ++ [GatewayCall.generateSceneImage scene.imagePrompt refs])
      (pubs ++ [cur2])

/-- Result of one run of a storyboard handler: final state, the issued gateway
calls, every `setScenes` payload in order, and every `setCurrentPhase` /
`setOperationStatus` value in order. -/
structure RunResult1 where
  finalState : AppState1
  calls : List GatewayCall
  publishedScenes : List (List Scene)
  phaseTrace : List GenerationPhase
deriving DecidableEq, Repr

/-- The `finally` block of `handleGenerateVisualStory`.  `currentPhase` there
is the stale value captured when the callback was created (the invocation-time
phase), not the phase just written inside the `try`: the reset to `IDLE` fires
whenever the *invocation-time* phase was neither `ERROR` nor `COMPLETE`, and
the loading message is cleared on the analogous stale test. -/
def finallyBlockV1 (invocationPhase : GenerationPhase) (s : AppState1)
    (trace : List GenerationPhase) : AppState1 × List GenerationPhase :=
  let step1 :=
    if invocationPhase ≠ .ERROR ∧ invocationPhase ≠ .COMPLETE then
      ({ s with currentPhase := .IDLE }, trace ++ [GenerationPhase.IDLE])
    else (s, trace)
  if invocationPhase ≠ .GENERATING_CHARACTER_DESIGNS ∧
      invocationPhase ≠ .AWAITING_CHARACTER_APPROVAL then
    ({ step1.1 with loadingMessage := "" }, step1.2)
  else step1

/-- The characters that block variant 1's storyboard gate: named, with a
truthy generated design and no truthy approved design. -/
def unapprovedGateV1 (cs : List Character) : List Character :=
  cs.filter (fun c =>
    jsTrim c.name != "" && truthy c.generatedDesignUrl && !truthy c.approvedDesignUrl)

/-- `handleGenerateVisualStory` (variant 1): the storyboard build.  Gate: named
characters with a truthy generated design and no truthy approved design;
deconstruction; materialization; sequential image loop with progressive
publication; `finally` cleanup. -/
def handleGenerateVisualStory (s0 : AppState1)
    (deconstructOutcome : Except String (Option (List SceneResponse)))
    (imageOracle : Nat → Except String String) : RunResult1 :=
  if s0.currentPhase == .ERROR then ⟨s0, [], [], []⟩
  else if jsTrim s0.storyText == "" then
    ⟨{ s0 with error := some "Please enter a story." }, [], [], []⟩
  else
    let unapprovedChars := unapprovedGateV1 s0.characters
    if !unapprovedChars.isEmpty then
      ⟨{ s0 with
          error := some ("Please approve or regenerate designs for all characters: " ++
            String.intercalate ", " (unapprovedChars.map (fun c => c.name))),
          currentPhase := .AWAITING_CHARACTER_APPROVAL },
       [], [], [GenerationPhase.AWAITING_CHARACTER_APPROVAL]⟩
    else
      let s1 := { s0 with error := none, scenes := [],
                          currentPhase := .DECONSTRUCTING_STORY,
                          loadingMessage := "Deconstructing story and planning scenes..." }
      let calls0 := [GatewayCall.deconstructStory s0.storyText]
      match deconstructOutcome with
      | .error m =>
        let s2 := { s1 with
          error := some ("An error occurred: " ++ orFallback m "Unknown error"),
          currentPhase := .ERROR }
        let fin := finallyBlockV1 s0.currentPhase s2
          [GenerationPhase.DECONSTRUCTING_STORY, GenerationPhase.ERROR]
        ⟨fin.1, calls0, [[]], fin.2⟩
      | .ok resp =>
        match resp with
        | none =>
          let s2 := { s1 with
            error := some "Failed to deconstruct story or no scenes were found. Try a different story or adjust parameters.",
            currentPhase := .IDLE }
          let fin := finallyBlockV1 s0.currentPhase s2
            [GenerationPhase.DECONSTRUCTING_STORY, GenerationPhase.IDLE]
          ⟨fin.1, calls0, [[]], fin.2⟩
        | some rs =>
          if rs.isEmpty then
            let s2 := { s1 with
              error := some "Failed to deconstruct story or no scenes were found. Try a different story or adjust parameters.",
              currentPhase := .IDLE }
            let fin := finallyBlockV1 s0.currentPhase s2
              [GenerationPhase.DECONSTRUCTING_STORY, GenerationPhase.IDLE]
            ⟨fin.1, calls0, [[]], fin.2⟩
          else
            let initialScenes := materializeScenes rs
            let s2 := { s1 with scenes := initialScenes,
                                currentPhase := .GENERATING_SCENE_IMAGES }
            let loopOut := sceneLoop (settleSceneV1 imageOracle)
              (resolveRefsV1 s0.characters) initialScenes [] initialScenes [] []
            let updated := loopOut.1
            let s3 := { s2 with scenes := updated, currentPhase := .COMPLETE,
                                loadingMessage := "Storyboard generation complete!" }
            let fin := finallyBlockV1 s0.currentPhase s3
              ([GenerationPhase.DECONSTRUCTING_STORY,
                GenerationPhase.GENERATING_SCENE_IMAGES,
                GenerationPhase.COMPLETE])
            ⟨fin.1, calls0 ++ loopOut.2.2.1,
             [[], initialScenes] ++ loopOut.2.2.2 ++ [updated], fin.2⟩

/-- Result of one run of `handleGenerateStoryboard` (variant 2). -/
structure RunResult2 where
  finalState : AppState2
  calls : List GatewayCall
  publishedScenes : List (List Scene)
deriving DecidableEq, Repr

/-- The named characters (`characters.filter(c => c.name.trim() !== '')`). -/
def namedCharactersOf (cs : List Character) : List Character :=
  cs.filter (fun c => jsTrim c.name != "")

/-- `handleGenerateStoryboard` (variant 2): gate (every named character must
have a truthy approved design), deconstruction, materialization, sequential
image loop with progressive publication; success status at the end; failures
go through `handleError`. -/
def handleGenerateStoryboard (s0 : AppState2)
    (deconstructOutcome : Except String (Option (List SceneResponse)))
    (imageOracle : Nat → Except String String) : RunResult2 :=
  if apiKeyErrorActive s0 then ⟨s0, [], []⟩
  else
    let namedCharacters := namedCharactersOf s0.characters
    if !namedCharacters.isEmpty &&
        namedCharacters.any (fun c => !truthy c.approvedDesignUrl) then
      ⟨{ s0 with
          globalError := some "Please approve all named character designs before generating the storyboard.",
          operationStatus := .IDLE, currentView := .characterDesignReview },
       [], []⟩
    else
      let s1 := { s0 with globalError := none, operationStatus := .LOADING,
                          loadingMessage := "Deconstructing story...",
                          scenes := [] }
      let calls0 := [GatewayCall.deconstructStory s0.storyText]
      match deconstructOutcome with
      | .error m =>
        ⟨{ handleError ("Storyboard generation failed: " ++ m) s1 with
            currentView := .storyboardDisplay }, calls0, [[]]⟩
      | .ok resp =>
        match resp with
        | none =>
          ⟨{ handleError "Failed to deconstruct story or no scenes found." s1 with
              currentView := .characterDesignReview }, calls0, [[]]⟩
        | some rs =>
          if rs.isEmpty then
            ⟨{ handleError "Failed to deconstruct story or no scenes found." s1 with
                currentView := .characterDesignReview }, calls0, [[]]⟩
          else
            let initialScenes := materializeScenes rs
            let s2 := { s1 with scenes := initialScenes,
                                currentView := .storyboardDisplay,
                                loadingMessage := "Generating scene images..." }
            let loopOut := sceneLoop (settleSceneV2 imageOracle)
              (resolveRefsV2 s0.characters) initialScenes [] initialScenes [] []
            ⟨{ s2 with scenes := loopOut.2.1, operationStatus := .SUCCESS,
                       loadingMessage := "Storyboard complete!" },
             calls0 ++ loopOut.2.2.1, [[], initialScenes] ++ loopOut.2.2.2⟩

/-! ## Character lifecycle (extraction, manual entry, edits)

`handleStorySubmitted` (variant 2 App.tsx), `addCharacter` /
`updateCharacterField` / `removeCharacter` / `acceptAiSuggestion`
(CharacterDefinitionPage, src/unnamed/part_007), `addCharacter` /
`updateCharacter` (StoryInputForm, src/unnamed/part_004), plus the design
operations already defined above.  These are gathered into one small-step
transition system over (fresh-id supply, character list) to state lifetime
invariants of the `isAiExtracted` flag. -/

/-- The textual payload of one entry of the extraction response. -/
structure ExtractedInfo where
  name : String := ""
  appearance : String := ""
  attire : String := ""
  props : String := ""
  description : String := ""
  gender : String := ""
  age : String := ""
  hairColor : String := ""
  eyeColor : String := ""
  build : String := ""
  personalityTraits : String := ""
  clothingStyle : String := ""
  distinguishingFeatures : String := ""
  habitsMannerisms : String := ""
deriving DecidableEq, Repr

/-- A character freshly created by the manual "add character" buttons
(`CharacterDefinitionPage.addCharacter` and `StoryInputForm.addCharacter`):
every textual field empty and `isAiExtracted: false`. -/
def blankCharacter (newId : Nat) : Character :=
  { id := newId, isAiExtracted := false }

/-- One character materialized by `handleStorySubmitted` from an extraction
entry: fresh id, `isAiExtracted: true`, textual fields copied. -/
def extractedCharacter (newId : Nat) (e : ExtractedInfo) : Character :=
  { id := newId, name := e.name, appearance := e.appearance,
    attire := e.attire, props := e.props, description := e.description,
    gender := e.gender, age := e.age, hairColor := e.hairColor,
    eyeColor := e.eyeColor, build := e.build,
    personalityTraits := e.personalityTraits,
    clothingStyle := e.clothingStyle,
    distinguishingFeatures := e.distinguishingFeatures,
    habitsMannerisms := e.habitsMannerisms, isAiExtracted := true }

/-- `handleStorySubmitted` on a successful extraction with at least one
character: replace the whole character list by the first `MAX_CHARACTERS`
extraction entries, each with a fresh id and `isAiExtracted: true`. -/
def extractionReplace (nextId : Nat) (es : List ExtractedInfo) :
    List Character :=
  ((List.range (es.take MAX_CHARACTERS).length).zip (es.take MAX_CHARACTERS)).map
    (fun p => extractedCharacter (nextId + p.1) p.2)

/-- `updateCharacterField` (CharacterDefinitionPage): write one textual field
of the character at `index`; if the character was AI-extracted, clear the
flag. -/
def updateCharacterField (index : Nat) (field : TextField) (value : String)
    (cs : List Character) : List Character :=
  match cs.get? index with
  | none => cs
  | some c =>
    let c1 := setTextField field value c
    let c2 := if c1.isAiExtracted then { c1 with isAiExtracted := false } else c1
    cs.set index c2

/-- `updateCharacter` (StoryInputForm): replace the character at `index` by the
edited copy, forcing `isAiExtracted: false`; the edited copy comes from
`CharacterInput.onChange({ ...character, [field]: value })`, i.e. the same
character with one textual field rewritten. -/
def updateCharacter (index : Nat) (field : TextField) (value : String)
    (cs : List Character) : List Character :=
  match cs.get? index with
  | none => cs
  | some c => cs.set index { setTextField field value c with isAiExtracted := false }

/-- `removeCharacter` (both variants): drop the character with the given id. -/
def removeCharacter (cid : Nat) (cs : List Character) : List Character :=
  cs.filter (fun c => c.id != cid)

/-- `acceptAiSuggestion` (CharacterDefinitionPage): mark the character as
accepted by clearing `isAiExtracted`. -/
def acceptAiSuggestion (cid : Nat) (cs : List Character) : List Character :=
  cs.map (fun c => if c.id == cid then { c with isAiExtracted := false } else c)

/-- The user/workflow operations that mutate the character list. -/
inductive CharOp
  | addManual
  | editField (index : Nat) (field : TextField) (value : String)
  | editWhole (index : Nat) (field : TextField) (value : String)
  | remove (cid : Nat)
  | accept (cid : Nat)
  | extract (es : List ExtractedInfo)
  | approve (cid : Nat)
  | startDesign (cid : Nat)
  | finishDesign (cid : Nat) (r : Except String String)
  | regenerateStart (cid : Nat)
deriving Repr

/-- The character-registry session: the fresh-id supply plus the character
list. -/
structure RegistryState where
  nextId : Nat := 0
  characters : List Character := []
deriving DecidableEq, Repr

/-- Small-step semantics of the character registry: how each operation of the
source mutates the list (design operations reuse the handler bodies defined
above; `regenerateStart` is the pre-call update of
`handleRegenerateSingleCharacterDesign`, which also clears the approved
design). -/
def stepOp (o : CharOp) (s : RegistryState) : RegistryState :=
  match o with
  | .addManual =>
    if s.characters.length < MAX_CHARACTERS then
      { nextId := s.nextId + 1,
        characters := s.characters ++ [blankCharacter s.nextId] }
    else s
  | .editField index field value =>
    { s with characters := updateCharacterField index field value s.characters }
  | .editWhole index field value =>
    { s with characters := updateCharacter index field value s.characters }
  | .remove cid => { s with characters := removeCharacter cid s.characters }
  | .accept cid => { s with characters := acceptAiSuggestion cid s.characters }
  | .extract es =>
    { nextId := s.nextId + (es.take MAX_CHARACTERS).length,
      characters := extractionReplace s.nextId es }
  | .approve cid =>
    { s with characters := (handleApproveCharacterDesign cid s.characters).1 }
  | .startDesign cid =>
    { s with characters := markDesignLoading cid s.characters }
  | .finishDesign cid r =>
    { s with characters := applyDesignResult cid r s.characters }
  | .regenerateStart cid =>
    { s with characters := s.characters.map (fun c =>
        if c.id == cid then
          { c with isDesignLoading := true, designError := none,
                   generatedDesignUrl := none, approvedDesignUrl := none }
        else c) }

/-- States reachable from the empty session through the source's operations. -/
inductive Reachable : RegistryState → Prop
  | init : Reachable {}
  | step (o : CharOp) {s : RegistryState} : Reachable s → Reachable (stepOp o s)

/-- Id-freshness invariant: every live character's id is below the supply. -/
def IdsFresh (s : RegistryState) : Prop :=
  ∀ c ∈ s.characters, c.id < s.nextId

/-! ## In-flight call traces of the design batches (concurrency structure)

JavaScript is single-threaded, so "two calls in flight" means: a second call is
initiated before an earlier one has settled.  A batch execution is abstracted
to its sequence of call-initiation and call-settlement events. -/

/-- Call-initiation / call-settlement events of one design batch. -/
inductive BatchEvent
  | start (cid : Nat)
  | finish (cid : Nat)
deriving DecidableEq, Repr

/-- Variant 1 `handleGenerateCharacterDesigns`: `charactersToProcess.map(async
char => …)` runs every closure synchronously up to its first await, so every
`generateCharacterSheetImage` call is initiated (in selection order) before
`Promise.all` suspends; the calls then settle in some order. -/
def designCallTraceV1 (ids : List Nat) (settleOrder : List Nat) :
    List BatchEvent :=
  ids.map BatchEvent.start ++ settleOrder.map BatchEvent.finish

/-- Variant 2 `handleGenerateAllCharacterDesigns`: the `for … of` loop awaits
each `generateMultiViewCharacterSheetImage` call before initiating the next. -/
def designCallTraceV2 (ids : List Nat) : List BatchEvent :=
  (ids.map (fun i => [BatchEvent.start i, BatchEvent.finish i])).flatten

/-- The number of in-flight calls observed at each point of a trace, starting
from `n` outstanding calls. -/
def inFlightCounts : List BatchEvent → Nat → List Nat
  | [], n => [n]
  | .start _ :: t, n => n :: inFlightCounts t (n + 1)
  | .finish _ :: t, n => n :: inFlightCounts t (n - 1)

/-- The largest number of calls simultaneously in flight during a trace. -/
def maxInFlight (t : List BatchEvent) : Nat :=
  (inFlightCounts t 0).foldl Nat.max 0

/-! ## Helper lemmas -/

theorem foldl_max_le_iff (l : List Nat) (b : Nat) :
    ∀ a, l.foldl Nat.max a ≤ b ↔ a ≤ b ∧ ∀ x ∈ l, x ≤ b := by
  induction l with
  | nil => intro a; simp
  | cons h t ih =>
    intro a
    simp only [List.foldl_cons, ih, Nat.max_le, List.mem_cons]
    constructor
    · rintro ⟨⟨h1, h2⟩, h3⟩
      refine ⟨h1, fun x hx => ?_⟩
      rcases hx with rfl | hx
      · exact h2
      · exact h3 x hx
    · rintro ⟨h1, h2⟩
      exact ⟨⟨h1, h2 _ (Or.inl rfl)⟩, fun x hx => h2 x (Or.inr hx)⟩

theorem init_le_foldl_max (l : List Nat) : ∀ a, a ≤ l.foldl Nat.max a := by
  induction l with
  | nil => intro a; exact Nat.le_refl a
  | cons h t ih =>
    intro a
    exact Nat.le_trans (Nat.le_max_left a h) (ih (Nat.max a h))

theorem mem_le_foldl_max {x : Nat} (l : List Nat) (h : x ∈ l) :
    ∀ a, x ≤ l.foldl Nat.max a := by
  induction l with
  | nil => cases h
  | cons y t ih =>
    intro a
    rcases List.mem_cons.mp h with rfl | hx
    · exact Nat.le_trans (Nat.le_max_right a x) (init_le_foldl_max t _)
    · exact ih hx _

theorem inFlightCounts_head (t : List BatchEvent) (n : Nat) :
    ∃ l, inFlightCounts t n = n :: l := by
  cases t with
  | nil => exact ⟨[], rfl⟩
  | cons e t =>
    cases e with
    | start cid => exact ⟨_, rfl⟩
    | finish cid => exact ⟨_, rfl⟩

theorem inFlightCounts_traceV2_le_one (ids : List Nat) :
    ∀ x ∈ inFlightCounts (designCallTraceV2 ids) 0, x ≤ 1 := by
  induction ids with
  | nil =>
    intro x hx
    simp only [designCallTraceV2, List.map_nil, List.flatten_nil,
      inFlightCounts, List.mem_singleton] at hx
    omega
  | cons i t ih =>
    intro x hx
    simp only [designCallTraceV2, List.map_cons, List.flatten_cons,
      List.cons_append, List.nil_append, inFlightCounts, List.mem_cons] at hx
    rcases hx with rfl | hx
    · omega
    rcases hx with rfl | hx
    · omega
    · exact ih x (by simpa [designCallTraceV2] using hx)

/-- C2, claim as stated, refuted: in variant 1's
`handleGenerateCharacterDesigns`, a batch of two selected characters initiates
both design calls before either settles, so two AIGateway calls are in flight
concurrently (`maxInFlight = 2`, not `≤ 1`). -/
theorem designBatchV1_two_in_flight :
    maxInFlight (designCallTraceV1 [0, 1] [0, 1]) = 2 ∧
    ¬ maxInFlight (designCallTraceV1 [0, 1] [0, 1]) ≤ 1 := by
  constructor
  · rfl
  · decide

/-- C2 (amended): variant 2's `handleGenerateAllCharacterDesigns` awaits each
design call before initiating the next, so at most one AIGateway call is ever
in flight during its batch; variant 1's `handleGenerateCharacterDesigns`
initiates every selected character's call before any settles, so any batch of
two or more selected characters has two calls in flight concurrently. -/
theorem designBatch_concurrency :
    (∀ ids : List Nat, maxInFlight (designCallTraceV2 ids) ≤ 1) ∧
    (∀ (i j : Nat) (rest settleOrder : List Nat),
      2 ≤ maxInFlight (designCallTraceV1 (i :: j :: rest) settleOrder)) := by
  constructor
  · intro ids
    unfold maxInFlight
    rw [foldl_max_le_iff]
    exact ⟨by omega, inFlightCounts_traceV2_le_one ids⟩
  · intro i j rest settleOrder
    unfold maxInFlight
    have h2 : 2 ∈ inFlightCounts (designCallTraceV1 (i :: j :: rest) settleOrder) 0 := by
      have hshape : inFlightCounts (designCallTraceV1 (i :: j :: rest) settleOrder) 0 =
          0 :: 1 :: inFlightCounts
            (rest.map BatchEvent.start ++ settleOrder.map BatchEvent.finish) 2 := rfl
      obtain ⟨l, hl⟩ := inFlightCounts_head (rest.map BatchEvent.start ++
        settleOrder.map BatchEvent.finish) 2
      rw [hshape, hl]
      exact List.mem_cons_of_mem _ (List.mem_cons_of_mem _ (List.mem_cons_self _ _))
    exact mem_le_foldl_max _ h2 0

/-! ## C4: approveCharacterDesign -/

/-- The result of approving a character's generated design: the generated URL
moved into the approved slot, generated slot / error / loading cleared. -/
def approvedVersion (c : Character) : Character :=
  { c with approvedDesignUrl := c.generatedDesignUrl,
           generatedDesignUrl := none, designError := none,
           isDesignLoading := false }

theorem approveElem_pos {cid : Nat} {c : Character} (hid : c.id = cid)
    (hgen : truthy c.generatedDesignUrl = true) :
    approveElem cid c = approvedVersion c := by
  unfold approveElem
  rw [if_pos]
  · rfl
  · rw [hid, hgen]; simp

theorem approveElem_neg {cid : Nat} {c : Character}
    (h : ¬(c.id = cid ∧ truthy c.generatedDesignUrl = true)) :
    approveElem cid c = c := by
  unfold approveElem
  rw [if_neg]
  intro hcond
  rw [Bool.and_eq_true, beq_iff_eq] at hcond
  exact h hcond

theorem approveElem_idem (cid : Nat) (c : Character) :
    approveElem cid (approveElem cid c) = approveElem cid c := by
  by_cases h : c.id = cid ∧ truthy c.generatedDesignUrl = true
  · rw [approveElem_pos h.1 h.2]
    apply approveElem_neg
    rintro ⟨_, habs⟩
    simp [approvedVersion, truthy] at habs
  · rw [approveElem_neg h, approveElem_neg h]

/-- C4: `handleApproveCharacterDesign` makes no AIGateway call; a character
with the given id and a truthy (non-empty) generated design URL is atomically
replaced by its approved version (URL moved into the approved slot, generated
slot and error cleared); every other character is untouched; when no character
with the id has a non-empty generated design the list is unchanged; and the
operation is idempotent: a second call with no intervening regeneration
leaves the state identical. -/
theorem approveCharacterDesign_spec (cid : Nat) (cs : List Character) :
    (handleApproveCharacterDesign cid cs).2 = [] ∧
    (∀ c ∈ cs, c.id = cid → truthy c.generatedDesignUrl = true →
      approvedVersion c ∈ (handleApproveCharacterDesign cid cs).1) ∧
    (∀ c ∈ cs, ¬(c.id = cid ∧ truthy c.generatedDesignUrl = true) →
      c ∈ (handleApproveCharacterDesign cid cs).1) ∧
    ((∀ c ∈ cs, c.id = cid → truthy c.generatedDesignUrl = false) →
      (handleApproveCharacterDesign cid cs).1 = cs) ∧
    handleApproveCharacterDesign cid (handleApproveCharacterDesign cid cs).1 =
      handleApproveCharacterDesign cid cs := by
  refine ⟨rfl, ?_, ?_, ?_, ?_⟩
  · intro c hc hid hgen
    rw [← approveElem_pos hid hgen]
    exact List.mem_map_of_mem _ hc
  · intro c hc hcond
    have := List.mem_map_of_mem (approveElem cid) hc
    rwa [approveElem_neg hcond] at this
  · intro hnone
    show cs.map (approveElem cid) = cs
    conv_rhs => rw [← List.map_id cs]
    apply List.map_congr_left
    intro c hc
    apply approveElem_neg
    rintro ⟨hid, hgen⟩
    rw [hnone c hc hid] at hgen
    exact Bool.false_ne_true hgen
  · unfold handleApproveCharacterDesign
    rw [List.map_map]
    refine congrArg (fun l => (l, ([] : List GatewayCall))) ?_
    apply List.map_congr_left
    intro c _
    exact approveElem_idem cid c

/-- A concrete character with a pending generated design, for the C4 witness. -/
def arinWithDesign : Character :=
  { id := 0, name := "Arin", generatedDesignUrl := some "data:image/jpeg;base64,XXXX" }

/-- A concrete character with no design activity, for the C4 witness. -/
def miraPlain : Character := { id := 1, name := "Mira" }

/-- C4 witness: the spec theorem applied at a concrete two-character list —
the character with a generated design is approved (the URL moves to the
approved slot) and the unrelated character is untouched. -/
theorem approveCharacterDesign_spec_witness :
    approvedVersion arinWithDesign ∈
      (handleApproveCharacterDesign 0 [arinWithDesign, miraPlain]).1 ∧
    miraPlain ∈ (handleApproveCharacterDesign 0 [arinWithDesign, miraPlain]).1 := by
  constructor
  · exact (approveCharacterDesign_spec 0 _).2.1 _ (List.mem_cons_self _ _) rfl (by decide)
  · exact (approveCharacterDesign_spec 0 _).2.2.1 _
      (List.mem_cons_of_mem _ (List.mem_cons_self _ _)) (by decide)

/-! ## C8: reference-image resolution -/

theorem find?_first_match {α : Type} (p : α → Bool) (pre post : List α) (c : α)
    (hpre : ∀ x ∈ pre, p x = false) (hc : p c = true) :
    (pre ++ c :: post).find? p = some c := by
  induction pre with
  | nil => simp [List.find?_cons, hc]
  | cons x t ih =>
    have hx := hpre x (List.mem_cons_self _ _)
    simp only [List.cons_append, List.find?_cons, hx, cond_false]
    exact ih (fun y hy => hpre y (List.mem_cons_of_mem _ hy))

/-- A concrete approved character, for the C8 statements ("Arin" with approved
design URL `data:image/jpeg;base64,XXXX`). -/
def arinApproved : Character :=
  { id := 0, name := "Arin", approvedDesignUrl := some "data:image/jpeg;base64,XXXX" }

/-- C8: reference images are resolved by exact string equality between each
scene character name and an approved character's name; the first matching
character in list order wins; and the concrete example — a scene with
`charactersInScene = ["Arin"]` and an approved Arin whose design URL is
`data:image/jpeg;base64,XXXX` — yields exactly one reference entry with mime
type `image/jpeg` and payload `XXXX`, in both variants. -/
theorem referenceResolution_spec :
    (resolveRefsV1 [arinApproved] ["Arin"] =
        [{ mimeType := "image/jpeg", data := "XXXX" }] ∧
      resolveRefsV2 [arinApproved] ["Arin"] =
        [{ mimeType := "image/jpeg", data := "XXXX" }]) ∧
    (∀ (pre post : List Character) (c : Character) (n : String),
      (∀ x ∈ pre, (x.name == n && truthy x.approvedDesignUrl) = false) →
      c.name = n → truthy c.approvedDesignUrl = true →
      resolveRefsV1 (pre ++ c :: post) [n] = resolveRefsV1 [c] [n] ∧
      resolveRefsV2 (pre ++ c :: post) [n] = resolveRefsV2 [c] [n]) := by
  refine ⟨⟨by rfl, by rfl⟩, ?_⟩
  intro pre post c n hpre hname happ
  have hc : (c.name == n && truthy c.approvedDesignUrl) = true := by
    rw [hname, happ]; simp
  have hfind : (pre ++ c :: post).find?
      (fun x => x.name == n && truthy x.approvedDesignUrl) = some c :=
    find?_first_match _ pre post c hpre hc
  have hfind1 : ([c] : List Character).find?
      (fun x => x.name == n && truthy x.approvedDesignUrl) = some c := by
    simp [List.find?_cons, hc]
  constructor
  · unfold resolveRefsV1
    rw [List.map_cons, List.map_nil, List.map_cons, List.map_nil, hfind, hfind1]
  · unfold resolveRefsV2
    rw [List.map_cons, List.map_nil, List.map_cons, List.map_nil, hfind, hfind1]

/-- A same-named character with no approved design, for the C8 witness: it is
skipped by the lookup even though it precedes the approved character. -/
def arinUnapproved : Character := { id := 7, name := "Arin" }

/-- C8 witness: first-match resolution applied at a concrete list — a
preceding same-named character without an approved design is skipped, and the
single entry comes from the approved character. -/
theorem referenceResolution_spec_witness :
    resolveRefsV1 ([arinUnapproved] ++ arinApproved :: []) ["Arin"] =
      resolveRefsV1 [arinApproved] ["Arin"] ∧
    resolveRefsV2 ([arinUnapproved] ++ arinApproved :: []) ["Arin"] =
      resolveRefsV2 [arinApproved] ["Arin"] :=
  referenceResolution_spec.2 [arinUnapproved] [] arinApproved "Arin"
    (by decide) rfl (by decide)

/-! ## C10: handleRegenerateSingleCharacterDesign -/

/-- Membership through an id-keyed map update: any element of the updated list
carrying the targeted id is the update of an original element with that id
(the update must preserve ids). -/
theorem mem_map_idite (u : Character → Character) (cid : Nat)
    (cs : List Character) :
    ∀ c' ∈ cs.map (fun c => if c.id == cid then u c else c), c'.id = cid →
      ∃ d ∈ cs, d.id = cid ∧ c' = u d := by
  intro c' hc' hid
  simp only [List.mem_map] at hc'
  obtain ⟨d, hd, hde⟩ := hc'
  by_cases h : (d.id == cid) = true
  · rw [if_pos h] at hde
    exact ⟨d, hd, beq_iff_eq.mp h, hde.symm⟩
  · rw [if_neg h] at hde
    subst hde
    exact absurd (beq_iff_eq.mpr hid) h

/-- C10: for an existing character with a non-empty name (and no blocking
API-key error), single-character regeneration clears the character's generated
design URL, approved design URL and design error and sets `isDesignLoading`
*before* the AIGateway call is issued (so a previously approved character
loses its approval as soon as regeneration starts); exactly one design call is
made; and when that call fails the character ends with only a `designError` —
neither an approved nor a generated design — and the loading flag cleared. -/
theorem regenerateSingleCharacterDesign_spec (s0 : AppState2) (cid : Nat)
    (oracle : Except String String) (c : Character)
    (hapi : apiKeyErrorActive s0 = false)
    (hfind : s0.characters.find? (fun c => c.id == cid) = some c)
    (hname : jsTrim c.name ≠ "") :
    (handleRegenerateSingleCharacterDesign s0 cid oracle).calls =
      [GatewayCall.generateCharacterDesign cid] ∧
    (∀ c' ∈ (handleRegenerateSingleCharacterDesign s0 cid oracle).preCallCharacters,
      c'.id = cid →
        c'.generatedDesignUrl = none ∧ c'.approvedDesignUrl = none ∧
        c'.designError = none ∧ c'.isDesignLoading = true) ∧
    (∀ m, oracle = .error m →
      ∀ c' ∈ (handleRegenerateSingleCharacterDesign s0 cid oracle).finalState.characters,
        c'.id = cid →
          c'.designError = some (orFallback m "Unknown error") ∧
          c'.generatedDesignUrl = none ∧ c'.approvedDesignUrl = none ∧
          c'.isDesignLoading = false) := by
  have hnameb : (jsTrim c.name == "") = false := by
    simp only [beq_eq_false_iff_ne, ne_eq]
    exact hname
  refine ⟨?_, ?_, ?_⟩
  · simp only [handleRegenerateSingleCharacterDesign, hapi, hfind, hnameb,
      Bool.false_eq_true, if_false]
  · intro c' hc' hid
    simp only [handleRegenerateSingleCharacterDesign, hapi, hfind, hnameb,
      Bool.false_eq_true, if_false] at hc'
    obtain ⟨d, hd, hdid, rfl⟩ := mem_map_idite
      (fun c => { c with isDesignLoading := true, designError := none,
                         generatedDesignUrl := none, approvedDesignUrl := none })
      cid s0.characters c' hc' hid
    exact ⟨rfl, rfl, rfl, rfl⟩
  · intro m hm c' hc' hid
    subst hm
    simp only [handleRegenerateSingleCharacterDesign, hapi, hfind, hnameb,
      Bool.false_eq_true, if_false] at hc'
    obtain ⟨d, hd, hdid, rfl⟩ := mem_map_idite
      (fun c => { c with designError := some (orFallback m "Unknown error"),
                         isDesignLoading := false })
      cid _ c' hc' hid
    obtain ⟨e, he, heid, rfl⟩ := mem_map_idite
      (fun c => { c with isDesignLoading := true, designError := none,
                         generatedDesignUrl := none, approvedDesignUrl := none })
      cid s0.characters d hd hdid
    exact ⟨rfl, rfl, rfl, rfl⟩

/-- A previously approved character, for the C10 witness. -/
def arinPreviouslyApproved : Character :=
  { id := 3, name := "Arin", approvedDesignUrl := some "data:image/png;base64,YYYY" }

/-- The session holding the previously approved character, for the C10
witness. -/
def regenWitnessState : AppState2 :=
  { currentView := .characterDesignReview, characters := [arinPreviouslyApproved] }

/-- C10 witness: the spec theorem applied at a concrete state — regeneration
of a previously approved character issues exactly one design call, strips the
approval before the call, and a failing call leaves only a design error. -/
theorem regenerateSingleCharacterDesign_spec_witness :
    (handleRegenerateSingleCharacterDesign regenWitnessState 3
      (Except.error "boom")).calls = [GatewayCall.generateCharacterDesign 3] ∧
    (∀ c' ∈ (handleRegenerateSingleCharacterDesign regenWitnessState 3
        (Except.error "boom")).preCallCharacters,
      c'.id = 3 →
        c'.generatedDesignUrl = none ∧ c'.approvedDesignUrl = none ∧
        c'.designError = none ∧ c'.isDesignLoading = true) ∧
    (∀ m, (Except.error "boom" : Except String String) = .error m →
      ∀ c' ∈ (handleRegenerateSingleCharacterDesign regenWitnessState 3
          (Except.error "boom")).finalState.characters,
        c'.id = 3 →
          c'.designError = some (orFallback m "Unknown error") ∧
          c'.generatedDesignUrl = none ∧ c'.approvedDesignUrl = none ∧
          c'.isDesignLoading = false) :=
  regenerateSingleCharacterDesign_spec regenWitnessState 3 (Except.error "boom")
    arinPreviouslyApproved (by decide) (by decide) (by decide)

/-! ## C3: batch settlement — infrastructure -/

/-- The loading/cleared state of a character right after `markElem` hits it. -/
def MarkedP (a : Character) : Prop :=
  a.isDesignLoading = true ∧ a.designError = none ∧ a.generatedDesignUrl = none

/-- The settled state of a character after its design-call result is applied:
success leaves a generated design and no error; failure leaves an error and no
generated design; the loading flag is cleared either way. -/
def SettledP (r : Except String String) (a : Character) : Prop :=
  match r with
  | .ok u => a.generatedDesignUrl = some u ∧ a.designError = none ∧
      a.isDesignLoading = false
  | .error m => a.designError = some (orFallback m "Unknown error") ∧
      a.generatedDesignUrl = none ∧ a.isDesignLoading = false

theorem markElem_id (cid : Nat) (c : Character) : (markElem cid c).id = c.id := by
  unfold markElem; split <;> rfl

theorem markElem_approved (cid : Nat) (c : Character) :
    (markElem cid c).approvedDesignUrl = c.approvedDesignUrl := by
  unfold markElem; split <;> rfl

theorem markElem_skip {cid : Nat} {c : Character} (h : c.id ≠ cid) :
    markElem cid c = c := by
  unfold markElem
  rw [if_neg]
  intro hb
  exact h (beq_iff_eq.mp hb)

theorem markElem_establish {cid : Nat} {c : Character} (h : c.id = cid) :
    MarkedP (markElem cid c) := by
  unfold markElem
  rw [if_pos (beq_iff_eq.mpr h)]
  exact ⟨rfl, rfl, rfl⟩

theorem markElem_keep {cid : Nat} {c : Character} (h : MarkedP c) :
    MarkedP (markElem cid c) := by
  by_cases hc : c.id = cid
  · exact markElem_establish hc
  · rw [markElem_skip hc]; exact h

theorem settleElem_id (cid : Nat) (r : Except String String) (c : Character) :
    (settleElem cid r c).id = c.id := by
  unfold settleElem
  split
  · cases r <;> rfl
  · rfl

theorem settleElem_approved (cid : Nat) (r : Except String String)
    (c : Character) :
    (settleElem cid r c).approvedDesignUrl = c.approvedDesignUrl := by
  unfold settleElem
  split
  · cases r <;> rfl
  · rfl

theorem settleElem_skip {cid : Nat} {c : Character} (r : Except String String)
    (h : c.id ≠ cid) : settleElem cid r c = c := by
  unfold settleElem
  rw [if_neg]
  intro hb
  exact h (beq_iff_eq.mp hb)

theorem settleElem_establish {cid : Nat} {c : Character}
    (r : Except String String) (h : c.id = cid)
    (hgen : c.generatedDesignUrl = none) (herr : c.designError = none) :
    SettledP r (settleElem cid r c) := by
  unfold settleElem
  rw [if_pos (beq_iff_eq.mpr h)]
  cases r with
  | ok u => exact ⟨rfl, herr, rfl⟩
  | error m => exact ⟨rfl, hgen, rfl⟩

/-- Re-applying the (same-keyed) settle step preserves the settled state: the
oracle gives one fixed outcome per character id. -/
theorem settleElem_keep (oracle : Nat → Except String String) {c : Character}
    (j : Nat) (h : SettledP (oracle c.id) c) :
    SettledP (oracle c.id) (settleElem j (oracle j) c) := by
  by_cases hc : c.id = j
  · subst hc
    unfold settleElem
    rw [if_pos (beq_iff_eq.mpr rfl)]
    unfold SettledP at h ⊢
    cases hr : oracle c.id with
    | ok u =>
      rw [hr] at h
      exact ⟨rfl, h.2.1, rfl⟩
    | error m =>
      rw [hr] at h
      exact ⟨rfl, h.2.1, rfl⟩
  · rw [settleElem_skip _ hc]
    exact h

/-- Folding maps over a list equals mapping the per-element fold. -/
theorem foldl_map_eq {α : Type} (f : α → Character → Character) :
    ∀ (order : List α) (cs : List Character),
      order.foldl (fun acc i => acc.map (f i)) cs =
        cs.map (fun c => order.foldl (fun a i => f i a) c) := by
  intro order
  induction order with
  | nil => intro cs; exact (List.map_id cs).symm
  | cons i t ih =>
    intro cs
    rw [List.foldl_cons, ih (cs.map (f i)), List.map_map]
    rfl

theorem markFold_keep (ids : List Nat) :
    ∀ c, MarkedP c → MarkedP (ids.foldl (fun a i => markElem i a) c) := by
  induction ids with
  | nil => intro c h; exact h
  | cons i t ih => intro c h; exact ih _ (markElem_keep h)

theorem markFold_establish (ids : List Nat) :
    ∀ c : Character, c.id ∈ ids →
      MarkedP (ids.foldl (fun a i => markElem i a) c) := by
  induction ids with
  | nil => intro c h; cases h
  | cons i t ih =>
    intro c h
    rw [List.foldl_cons]
    by_cases hc : c.id = i
    · exact markFold_keep t _ (markElem_establish hc)
    · rw [markElem_skip hc]
      exact ih c ((List.mem_cons.mp h).resolve_left hc)

theorem markFold_id (ids : List Nat) :
    ∀ c : Character, (ids.foldl (fun a i => markElem i a) c).id = c.id := by
  induction ids with
  | nil => intro c; rfl
  | cons i t ih => intro c; rw [List.foldl_cons, ih, markElem_id]

theorem markFold_approved (ids : List Nat) :
    ∀ c : Character, (ids.foldl (fun a i => markElem i a) c).approvedDesignUrl =
      c.approvedDesignUrl := by
  induction ids with
  | nil => intro c; rfl
  | cons i t ih => intro c; rw [List.foldl_cons, ih, markElem_approved]

theorem settleFold_id (oracle : Nat → Except String String) (ids : List Nat) :
    ∀ c : Character,
      (ids.foldl (fun a i => settleElem i (oracle i) a) c).id = c.id := by
  induction ids with
  | nil => intro c; rfl
  | cons i t ih => intro c; rw [List.foldl_cons, ih, settleElem_id]

theorem settleFold_approved (oracle : Nat → Except String String)
    (ids : List Nat) :
    ∀ c : Character,
      (ids.foldl (fun a i => settleElem i (oracle i) a) c).approvedDesignUrl =
        c.approvedDesignUrl := by
  induction ids with
  | nil => intro c; rfl
  | cons i t ih => intro c; rw [List.foldl_cons, ih, settleElem_approved]

theorem settleFold_keep (oracle : Nat → Except String String) (ids : List Nat) :
    ∀ c : Character, SettledP (oracle c.id) c →
      SettledP (oracle c.id)
        (ids.foldl (fun a i => settleElem i (oracle i) a) c) := by
  induction ids with
  | nil => intro c h; exact h
  | cons i t ih =>
    intro c h
    rw [List.foldl_cons]
    have hid : (settleElem i (oracle i) c).id = c.id := settleElem_id i _ c
    have := ih (settleElem i (oracle i) c)
    rw [hid] at this
    exact this (settleElem_keep oracle i h)

theorem settleFold_establish (oracle : Nat → Except String String)
    (ids : List Nat) :
    ∀ c : Character, c.id ∈ ids → c.generatedDesignUrl = none →
      c.designError = none →
      SettledP (oracle c.id)
        (ids.foldl (fun a i => settleElem i (oracle i) a) c) := by
  induction ids with
  | nil => intro c h; cases h
  | cons i t ih =>
    intro c h hgen herr
    rw [List.foldl_cons]
    by_cases hc : c.id = i
    · have hset : SettledP (oracle c.id) (settleElem i (oracle i) c) := by
        rw [hc]
        exact settleElem_establish (oracle i) hc hgen herr
      have := settleFold_keep oracle t (settleElem i (oracle i) c)
      rw [settleElem_id] at this
      exact this hset
    · rw [settleElem_skip _ hc]
      exact ih c ((List.mem_cons.mp h).resolve_left hc) hgen herr

/-- Membership through an id-preserving map when the ids are distinct: the
element of the image sharing an original's id is exactly that original's
image. -/
theorem mem_map_nodup_id (F : Character → Character)
    (hF : ∀ c, (F c).id = c.id) (cs : List Character)
    (hnodup : (cs.map (fun c => c.id)).Nodup) (c : Character) (hc : c ∈ cs) :
    ∀ c' ∈ cs.map F, c'.id = c.id → c' = F c := by
  intro c' hc' hid
  obtain ⟨d, hd, rfl⟩ := List.mem_map.mp hc'
  have hdc : d.id = c.id := by rw [← hF d]; exact hid
  have : d = c := List.inj_on_of_nodup_map hnodup hd hc hdc
  rw [this]

/-- Variant 1 batch settlement: after `handleGenerateCharacterDesigns`
settles, the character corresponding to each selected one is settled per its
oracle outcome, its approval slot untouched (hence still unapproved). -/
theorem batchV1_settles (s0 : AppState1) (oracle : Nat → Except String String)
    (order : List Nat) (hphase : s0.currentPhase ≠ .ERROR)
    (hperm : order.Perm ((selectionV1 s0.characters).map (fun c => c.id)))
    (hnodup : (s0.characters.map (fun c => c.id)).Nodup)
    (c : Character) (hc : c ∈ s0.characters)
    (hcsel : c ∈ selectionV1 s0.characters) :
    ∀ c' ∈ (handleGenerateCharacterDesigns s0 oracle order).1.characters,
      c'.id = c.id →
        c'.approvedDesignUrl = c.approvedDesignUrl ∧
        truthy c'.approvedDesignUrl = false ∧
        SettledP (oracle c.id) c' := by
  have hphaseb : (s0.currentPhase == GenerationPhase.ERROR) = false := by
    rw [beq_eq_false_iff_ne]; exact hphase
  have hne : (selectionV1 s0.characters).isEmpty = false := by
    rw [List.isEmpty_eq_false]; exact List.ne_nil_of_mem hcsel
  have happ : truthy c.approvedDesignUrl = false := by
    have := (List.mem_filter.mp hcsel).2
    rw [Bool.and_eq_true, Bool.not_eq_true'] at this
    exact this.2
  have hrew : (handleGenerateCharacterDesigns s0 oracle order).1.characters =
      s0.characters.map (fun c =>
        order.foldl (fun a i => settleElem i (oracle i) a)
          (((selectionV1 s0.characters).map (fun c => c.id)).foldl
            (fun a i => markElem i a) c)) := by
    simp only [handleGenerateCharacterDesigns, hphaseb, hne, Bool.false_eq_true,
      if_false, markDesignLoading, applyDesignResult]
    rw [foldl_map_eq, foldl_map_eq, List.map_map]
    rfl
  intro c' hc' hid
  rw [hrew] at hc'
  have hF : ∀ d : Character, ((fun c =>
      order.foldl (fun a i => settleElem i (oracle i) a)
        (((selectionV1 s0.characters).map (fun c => c.id)).foldl
          (fun a i => markElem i a) c)) d).id = d.id := by
    intro d
    rw [settleFold_id, markFold_id]
  have hceq := mem_map_nodup_id _ hF s0.characters hnodup c hc c' hc' hid
  have hmarked : MarkedP (((selectionV1 s0.characters).map (fun c => c.id)).foldl
      (fun a i => markElem i a) c) :=
    markFold_establish _ c (List.mem_map_of_mem _ hcsel)
  have hmid : (((selectionV1 s0.characters).map (fun c => c.id)).foldl
      (fun a i => markElem i a) c).id = c.id := markFold_id _ c
  have hsettled : SettledP (oracle c.id)
      (order.foldl (fun a i => settleElem i (oracle i) a)
        (((selectionV1 s0.characters).map (fun c => c.id)).foldl
          (fun a i => markElem i a) c)) := by
    have hin : (((selectionV1 s0.characters).map (fun c => c.id)).foldl
        (fun a i => markElem i a) c).id ∈ order := by
      rw [hmid]
      exact hperm.mem_iff.mpr (List.mem_map_of_mem _ hcsel)
    have := settleFold_establish oracle order _ hin hmarked.2.2 hmarked.2.1
    rwa [hmid] at this
  have happr : (order.foldl (fun a i => settleElem i (oracle i) a)
        (((selectionV1 s0.characters).map (fun c => c.id)).foldl
          (fun a i => markElem i a) c)).approvedDesignUrl =
      c.approvedDesignUrl := by
    rw [settleFold_approved, markFold_approved]
  have htr : truthy (order.foldl (fun a i => settleElem i (oracle i) a)
        (((selectionV1 s0.characters).map (fun c => c.id)).foldl
          (fun a i => markElem i a) c)).approvedDesignUrl = false := by
    rw [happr, happ]
  rw [hceq]
  exact ⟨happr, htr, hsettled⟩

/-- The character-list evolution of the sequential variant-2 design loop, when
every selected character has a non-empty trimmed name (true of the selection):
a fold of per-character settle updates in selection order. -/
theorem designLoopV2_chars (oracle : Nat → Except String String) :
    ∀ (sel : List Character),
      (∀ ctd ∈ sel, (jsTrim ctd.name == "") = false) →
      ∀ (cs : List Character) (calls : List GatewayCall),
        (designLoopV2 oracle sel cs calls).1 =
          sel.foldl (fun acc ctd => acc.map (settleElem ctd.id (oracle ctd.id))) cs := by
  intro sel
  induction sel with
  | nil => intro _ cs calls; rfl
  | cons ctd rest ih =>
    intro hnames cs calls
    have hname := hnames ctd (List.mem_cons_self _ _)
    show (designLoopV2 oracle (ctd :: rest) cs calls).1 = _
    rw [List.foldl_cons]
    unfold designLoopV2
    rw [hname]
    simp only [Bool.false_eq_true, if_false]
    rw [ih (fun x hx => hnames x (List.mem_cons_of_mem _ hx))]
    rfl

theorem markSelElem_id (sel : List Character) (c : Character) :
    (markSelElem sel c).id = c.id := by
  unfold markSelElem; split <;> rfl

theorem markSelElem_approved (sel : List Character) (c : Character) :
    (markSelElem sel c).approvedDesignUrl = c.approvedDesignUrl := by
  unfold markSelElem; split <;> rfl

theorem markSelElem_establish {sel : List Character} {c : Character}
    (h : ∃ d ∈ sel, d.id = c.id) : MarkedP (markSelElem sel c) := by
  unfold markSelElem
  rw [if_pos]
  · exact ⟨rfl, rfl, rfl⟩
  · obtain ⟨d, hd, hde⟩ := h
    exact List.find?_isSome.mpr ⟨d, hd, beq_iff_eq.mpr hde⟩

/-- Variant 2 batch settlement: after `handleGenerateAllCharacterDesigns`
(default selection) settles, the character corresponding to each selected one
is settled per its oracle outcome, its approval slot untouched (hence still
unapproved). -/
theorem batchV2_settles (s0 : AppState2) (oracle : Nat → Except String String)
    (hapi : apiKeyErrorActive s0 = false)
    (hnodup : (s0.characters.map (fun c => c.id)).Nodup)
    (c : Character) (hc : c ∈ s0.characters)
    (hcsel : c ∈ selectionV2 s0.characters) :
    ∀ c' ∈ (handleGenerateAllCharacterDesigns s0 none oracle).1.characters,
      c'.id = c.id →
        c'.approvedDesignUrl = c.approvedDesignUrl ∧
        truthy c'.approvedDesignUrl = false ∧
        SettledP (oracle c.id) c' := by
  have hpred := (List.mem_filter.mp hcsel).2
  rw [Bool.and_eq_true, Bool.and_eq_true] at hpred
  have happ : truthy c.approvedDesignUrl = false := by
    have := hpred.1.2
    rwa [Bool.not_eq_true'] at this
  have hne : (selectionV2 s0.characters).isEmpty = false := by
    rw [List.isEmpty_eq_false]; exact List.ne_nil_of_mem hcsel
  have hnames : ∀ ctd ∈ selectionV2 s0.characters,
      (jsTrim ctd.name == "") = false := by
    intro ctd hctd
    have := (List.mem_filter.mp hctd).2
    rw [Bool.and_eq_true, Bool.and_eq_true] at this
    have h1 := this.1.1
    rw [bne_iff_ne] at h1
    exact beq_eq_false_iff_ne.mpr h1
  have hrew : (handleGenerateAllCharacterDesigns s0 none oracle).1.characters =
      s0.characters.map (fun d =>
        (selectionV2 s0.characters).foldl
          (fun a ctd => settleElem ctd.id (oracle ctd.id) a)
          (markSelElem (selectionV2 s0.characters) d)) := by
    simp only [handleGenerateAllCharacterDesigns, hapi, Bool.false_eq_true,
      if_false, Option.getD_none, hne, markSelection]
    rw [designLoopV2_chars oracle _ hnames, foldl_map_eq, List.map_map]
    rfl
  intro c' hc' hid
  rw [hrew] at hc'
  have hGid : ∀ d : Character,
      ((selectionV2 s0.characters).foldl
        (fun a ctd => settleElem ctd.id (oracle ctd.id) a) d).id = d.id := by
    intro d
    rw [← List.foldl_map (fun ctd : Character => ctd.id)
      (fun a i => settleElem i (oracle i) a) (selectionV2 s0.characters) d]
    exact settleFold_id oracle _ d
  have hGapp : ∀ d : Character,
      ((selectionV2 s0.characters).foldl
        (fun a ctd => settleElem ctd.id (oracle ctd.id) a) d).approvedDesignUrl =
        d.approvedDesignUrl := by
    intro d
    rw [← List.foldl_map (fun ctd : Character => ctd.id)
      (fun a i => settleElem i (oracle i) a) (selectionV2 s0.characters) d]
    exact settleFold_approved oracle _ d
  have hF : ∀ d : Character, ((fun d =>
      (selectionV2 s0.characters).foldl
        (fun a ctd => settleElem ctd.id (oracle ctd.id) a)
        (markSelElem (selectionV2 s0.characters) d)) d).id = d.id := by
    intro d
    rw [hGid, markSelElem_id]
  have hceq := mem_map_nodup_id _ hF s0.characters hnodup c hc c' hc' hid
  have hmarked : MarkedP (markSelElem (selectionV2 s0.characters) c) :=
    markSelElem_establish ⟨c, hcsel, rfl⟩
  have hmid : (markSelElem (selectionV2 s0.characters) c).id = c.id :=
    markSelElem_id _ c
  have hsettled : SettledP (oracle c.id)
      ((selectionV2 s0.characters).foldl
        (fun a ctd => settleElem ctd.id (oracle ctd.id) a)
        (markSelElem (selectionV2 s0.characters) c)) := by
    rw [← List.foldl_map (fun ctd : Character => ctd.id)
      (fun a i => settleElem i (oracle i) a) (selectionV2 s0.characters)
      (markSelElem (selectionV2 s0.characters) c)]
    have hin : (markSelElem (selectionV2 s0.characters) c).id ∈
        (selectionV2 s0.characters).map (fun ctd => ctd.id) := by
      rw [hmid]
      exact List.mem_map_of_mem _ hcsel
    have := settleFold_establish oracle _ _ hin hmarked.2.2 hmarked.2.1
    rwa [hmid] at this
  have happr : ((selectionV2 s0.characters).foldl
      (fun a ctd => settleElem ctd.id (oracle ctd.id) a)
      (markSelElem (selectionV2 s0.characters) c)).approvedDesignUrl =
      c.approvedDesignUrl := by
    rw [hGapp, markSelElem_approved]
  have htr : truthy ((selectionV2 s0.characters).foldl
      (fun a ctd => settleElem ctd.id (oracle ctd.id) a)
      (markSelElem (selectionV2 s0.characters) c)).approvedDesignUrl = false := by
    rw [happr, happ]
  rw [hceq]
  exact ⟨happr, htr, hsettled⟩

theorem SettledP_not_loading {r : Except String String} {a : Character}
    (h : SettledP r a) : a.isDesignLoading = false := by
  unfold SettledP at h
  cases r with
  | ok u => exact h.2.2
  | error m => exact h.2.2

/-- C3: after either design batch settles — variant 1's concurrent
`handleGenerateCharacterDesigns` (results applied in any settle order) and
variant 2's sequential `handleGenerateAllCharacterDesigns` — every selected
character ends with `isDesignLoading = false`, still unapproved, and in
exactly one of the two remaining states: a generated-but-unapproved design
with no error (its call succeeded), or a design error with no generated
design (its call failed).  Hence every selected character lands in exactly one
of {approved, generated+unapproved, error} — the first being impossible here —
and none is left loading. -/
theorem designBatch_settlement_spec :
    (∀ (s0 : AppState1) (oracle : Nat → Except String String) (order : List Nat),
      s0.currentPhase ≠ .ERROR →
      order.Perm ((selectionV1 s0.characters).map (fun c => c.id)) →
      (s0.characters.map (fun c => c.id)).Nodup →
      ∀ c ∈ s0.characters, c ∈ selectionV1 s0.characters →
      ∀ c' ∈ (handleGenerateCharacterDesigns s0 oracle order).1.characters,
        c'.id = c.id →
          c'.isDesignLoading = false ∧ truthy c'.approvedDesignUrl = false ∧
          SettledP (oracle c.id) c') ∧
    (∀ (s0 : AppState2) (oracle : Nat → Except String String),
      apiKeyErrorActive s0 = false →
      (s0.characters.map (fun c => c.id)).Nodup →
      ∀ c ∈ s0.characters, c ∈ selectionV2 s0.characters →
      ∀ c' ∈ (handleGenerateAllCharacterDesigns s0 none oracle).1.characters,
        c'.id = c.id →
          c'.isDesignLoading = false ∧ truthy c'.approvedDesignUrl = false ∧
          SettledP (oracle c.id) c') := by
  constructor
  · intro s0 oracle order hphase hperm hnodup c hc hcsel c' hc' hid
    obtain ⟨_, htr, hs⟩ :=
      batchV1_settles s0 oracle order hphase hperm hnodup c hc hcsel c' hc' hid
    exact ⟨SettledP_not_loading hs, htr, hs⟩
  · intro s0 oracle hapi hnodup c hc hcsel c' hc' hid
    obtain ⟨_, htr, hs⟩ :=
      batchV2_settles s0 oracle hapi hnodup c hc hcsel c' hc' hid
    exact ⟨SettledP_not_loading hs, htr, hs⟩

/-- The freshly named character fed to the variant-1 batch witness. -/
def arinFresh : Character := { id := 0, name := "Arin" }

/-- The variant-1 session for the batch witness. -/
def batchW1State : AppState1 := { characters := [arinFresh] }

/-- The expected settled character of the variant-1 batch witness (design call
succeeded). -/
def arinSettled : Character :=
  { id := 0, name := "Arin", generatedDesignUrl := some "du" }

/-- The freshly named character fed to the variant-2 batch witness. -/
def miraFresh : Character := { id := 1, name := "Mira" }

/-- The variant-2 session for the batch witness. -/
def batchW2State : AppState2 := { characters := [miraFresh] }

/-- The expected settled character of the variant-2 batch witness (design call
failed). -/
def miraSettled : Character :=
  { id := 1, name := "Mira", designError := some "boom" }

/-- C3 witness: the settlement theorem applied at concrete one-character
batches — a successful variant-1 batch leaves the selected character
generated-but-unapproved and not loading; a failing variant-2 batch leaves it
with only a design error and not loading. -/
theorem designBatch_settlement_spec_witness :
    (arinSettled.isDesignLoading = false ∧
      truthy arinSettled.approvedDesignUrl = false ∧
      SettledP (Except.ok "du") arinSettled) ∧
    (miraSettled.isDesignLoading = false ∧
      truthy miraSettled.approvedDesignUrl = false ∧
      SettledP (Except.error "boom") miraSettled) := by
  constructor
  · exact designBatch_settlement_spec.1 batchW1State (fun _ => Except.ok "du") [0]
      (by decide) (List.Perm.refl _) (by decide) arinFresh (by decide) (by decide)
      arinSettled (by decide) rfl
  · exact designBatch_settlement_spec.2 batchW2State (fun _ => Except.error "boom")
      (by decide) (by decide) miraFresh (by decide) (by decide)
      miraSettled (by decide) rfl

/-! ## C7: provenance-flag (`isAiExtracted`) lifecycle -/

theorem setTextField_flag (f : TextField) (v : String) (c : Character) :
    (setTextField f v c).isAiExtracted = c.isAiExtracted := by
  cases f <;> rfl

theorem approveElem_flag (cid : Nat) (c : Character) :
    (approveElem cid c).isAiExtracted = c.isAiExtracted := by
  unfold approveElem; split <;> rfl

theorem markElem_flag (cid : Nat) (c : Character) :
    (markElem cid c).isAiExtracted = c.isAiExtracted := by
  unfold markElem; split <;> rfl

theorem settleElem_flag (cid : Nat) (r : Except String String) (c : Character) :
    (settleElem cid r c).isAiExtracted = c.isAiExtracted := by
  unfold settleElem
  split
  · cases r <;> rfl
  · rfl

theorem set_get?_self {α : Type} :
    ∀ (l : List α) (i : Nat) (a : α), l.get? i = some a → l.set i a = l := by
  intro l
  induction l with
  | nil => intro i a h; simp at h
  | cons x t ih =>
    intro i a h
    cases i with
    | zero => simp at h; simp [h]
    | succ j =>
      simp only [List.get?_cons_succ] at h
      simp [List.set_cons_succ, ih j a h]

theorem eq_of_same_id {cs : List Character}
    (hnodup : (cs.map (fun c => c.id)).Nodup) {a b : Character}
    (ha : a ∈ cs) (hb : b ∈ cs) (h : a.id = b.id) : a = b :=
  List.inj_on_of_nodup_map hnodup ha hb h

/-- The id-freshness and id-distinctness invariant of the character
registry. -/
def RegistryInv (s : RegistryState) : Prop :=
  IdsFresh s ∧ (s.characters.map (fun c => c.id)).Nodup

/-- Every character produced by an extraction replacement carries a fresh id
(at or above the pre-extraction supply). -/
theorem extractionReplace_id_ge (n : Nat) (es : List ExtractedInfo) :
    ∀ c ∈ extractionReplace n es, n ≤ c.id ∧
      c.id < n + (es.take MAX_CHARACTERS).length := by
  intro c hc
  unfold extractionReplace at hc
  obtain ⟨p, hp, rfl⟩ := List.mem_map.mp hc
  have hfst : p.1 ∈ List.range (es.take MAX_CHARACTERS).length :=
    (List.of_mem_zip hp).1
  have hk := List.mem_range.mp hfst
  have hid : (extractedCharacter (n + p.1) p.2).id = n + p.1 := rfl
  rw [hid]
  omega

theorem extractionReplace_ids_nodup (n : Nat) (es : List ExtractedInfo) :
    ((extractionReplace n es).map (fun c => c.id)).Nodup := by
  unfold extractionReplace
  rw [List.map_map]
  have hzip : ((List.range (es.take MAX_CHARACTERS).length).zip
      (es.take MAX_CHARACTERS)).map
        ((fun c => c.id) ∘ (fun p => extractedCharacter (n + p.1) p.2)) =
      ((List.range (es.take MAX_CHARACTERS).length).zip
        (es.take MAX_CHARACTERS)).map (fun p => n + p.1) := by
    apply List.map_congr_left
    intro p _
    rfl
  rw [hzip]
  have : ((List.range (es.take MAX_CHARACTERS).length).zip
      (es.take MAX_CHARACTERS)).map (fun p => n + p.1) =
      (((List.range (es.take MAX_CHARACTERS).length).zip
        (es.take MAX_CHARACTERS)).map Prod.fst).map (fun i => n + i) := by
    rw [List.map_map]
    rfl
  have hlen : (List.range (es.take MAX_CHARACTERS).length).length ≤
      (es.take MAX_CHARACTERS).length := by
    rw [List.length_range]
  rw [this, List.map_fst_zip _ _ hlen]
  exact List.Nodup.map (fun a b h => by omega) (List.nodup_range _)

/-- Id-preserving per-element maps leave the id list unchanged. -/
theorem map_ids_eq (g : Character → Character) (hid : ∀ c, (g c).id = c.id)
    (cs : List Character) :
    (cs.map g).map (fun c => c.id) = cs.map (fun c => c.id) := by
  rw [List.map_map]
  apply List.map_congr_left
  intro c _
  exact hid c

/-- Replacing a slot by a same-id character leaves the id list unchanged. -/
theorem set_ids_eq (cs : List Character) (i : Nat) (c2 d : Character)
    (hg : cs.get? i = some d) (hid : c2.id = d.id) :
    (cs.set i c2).map (fun c => c.id) = cs.map (fun c => c.id) := by
  rw [List.map_set, hid]
  apply set_get?_self
  rw [List.get?_map, hg]
  rfl

/-- The registry invariant only depends on the id list (and the supply). -/
theorem inv_of_ids_eq {s : RegistryState} (cs' : List Character)
    (h : cs'.map (fun c => c.id) = s.characters.map (fun c => c.id))
    (hinv : RegistryInv s) : RegistryInv ⟨s.nextId, cs'⟩ := by
  constructor
  · intro c hc
    have hmem : c.id ∈ s.characters.map (fun c => c.id) := by
      rw [← h]
      exact List.mem_map_of_mem _ hc
    obtain ⟨d, hd, hde⟩ := List.mem_map.mp hmem
    rw [← hde]
    exact hinv.1 d hd
  · show (cs'.map (fun c => c.id)).Nodup
    rw [h]
    exact hinv.2

/-- The character written into the edited slot by `updateCharacterField`. -/
def editedField (f : TextField) (v : String) (d : Character) : Character :=
  if (setTextField f v d).isAiExtracted then
    { setTextField f v d with isAiExtracted := false }
  else setTextField f v d

theorem setTextField_id (f : TextField) (v : String) (c : Character) :
    (setTextField f v c).id = c.id := by
  cases f <;> rfl

theorem editedField_id (f : TextField) (v : String) (d : Character) :
    (editedField f v d).id = d.id := by
  unfold editedField
  split
  · exact setTextField_id f v d
  · exact setTextField_id f v d

theorem editedField_flag (f : TextField) (v : String) (d : Character) :
    (editedField f v d).isAiExtracted = false := by
  unfold editedField
  split
  · rfl
  · rename_i hb
    exact Bool.eq_false_iff.mpr hb

/-- `updateCharacterField` in terms of the edited slot value. -/
theorem updateCharacterField_eq (i : Nat) (f : TextField) (v : String)
    (cs : List Character) :
    updateCharacterField i f v cs =
      match cs.get? i with
      | none => cs
      | some d => cs.set i (editedField f v d) := by
  unfold updateCharacterField editedField
  rfl

theorem approveElem_id (cid : Nat) (c : Character) :
    (approveElem cid c).id = c.id := by
  unfold approveElem; split <;> rfl

/-- Every operation preserves the registry invariant. -/
theorem stepOp_inv (o : CharOp) (s : RegistryState) (h : RegistryInv s) :
    RegistryInv (stepOp o s) := by
  obtain ⟨hfresh, hnodup⟩ := h
  cases o with
  | addManual =>
    show RegistryInv (if s.characters.length < MAX_CHARACTERS then _ else s)
    split
    · constructor
      · intro c hc
        rcases List.mem_append.mp hc with hc | hc
        · exact Nat.lt_succ_of_lt (hfresh c hc)
        · rw [List.mem_singleton.mp hc]
          exact Nat.lt_succ_self _
      · show ((s.characters ++ [blankCharacter s.nextId]).map (fun c => c.id)).Nodup
        rw [List.map_append, List.nodup_append]
        refine ⟨hnodup, List.nodup_singleton _, ?_⟩
        intro x hx hx2
        obtain ⟨c, hc, rfl⟩ := List.mem_map.mp hx
        have hlt := hfresh c hc
        simp only [List.map_cons, List.map_nil, List.mem_singleton] at hx2
        rw [hx2] at hlt
        exact Nat.lt_irrefl _ hlt
    · exact ⟨hfresh, hnodup⟩
  | editField i f v =>
    show RegistryInv ⟨s.nextId, updateCharacterField i f v s.characters⟩
    rw [updateCharacterField_eq]
    cases hg : s.characters.get? i with
    | none => exact ⟨hfresh, hnodup⟩
    | some d =>
      exact inv_of_ids_eq _
        (set_ids_eq _ i _ d hg (editedField_id f v d)) ⟨hfresh, hnodup⟩
  | editWhole i f v =>
    show RegistryInv ⟨s.nextId, updateCharacter i f v s.characters⟩
    unfold updateCharacter
    cases hg : s.characters.get? i with
    | none => exact ⟨hfresh, hnodup⟩
    | some d =>
      exact inv_of_ids_eq _
        (set_ids_eq _ i _ d hg (setTextField_id f v d)) ⟨hfresh, hnodup⟩
  | remove cid =>
    show RegistryInv ⟨s.nextId, removeCharacter cid s.characters⟩
    constructor
    · intro c hc
      exact hfresh c (List.mem_of_mem_filter hc)
    · exact List.Nodup.sublist
        (List.Sublist.map _ (List.filter_sublist _)) hnodup
  | accept cid =>
    show RegistryInv ⟨s.nextId, acceptAiSuggestion cid s.characters⟩
    exact inv_of_ids_eq _
      (map_ids_eq _ (fun c => by split <;> rfl) _)
      ⟨hfresh, hnodup⟩
  | extract es =>
    constructor
    · intro c hc
      have := (extractionReplace_id_ge s.nextId es c hc).2
      exact this
    · exact extractionReplace_ids_nodup s.nextId es
  | approve cid =>
    show RegistryInv ⟨s.nextId, (handleApproveCharacterDesign cid s.characters).1⟩
    exact inv_of_ids_eq _ (map_ids_eq _ (approveElem_id cid) _) ⟨hfresh, hnodup⟩
  | startDesign cid =>
    show RegistryInv ⟨s.nextId, markDesignLoading cid s.characters⟩
    exact inv_of_ids_eq _ (map_ids_eq _ (markElem_id cid) _) ⟨hfresh, hnodup⟩
  | finishDesign cid r =>
    show RegistryInv ⟨s.nextId, applyDesignResult cid r s.characters⟩
    exact inv_of_ids_eq _ (map_ids_eq _ (settleElem_id cid r) _) ⟨hfresh, hnodup⟩
  | regenerateStart cid =>
    exact inv_of_ids_eq _ (map_ids_eq _ (fun c => by split <;> rfl) _)
      ⟨hfresh, hnodup⟩

/-- One step never raises the `isAiExtracted` flag of an id below the supply:
if every live character with id `i` has the flag cleared, the same holds after
any operation (and the supply never shrinks). -/
theorem stepOp_flag_mono (o : CharOp) (t : RegistryState) (i : Nat)
    (hi : i < t.nextId)
    (hall : ∀ d ∈ t.characters, d.id = i → d.isAiExtracted = false) :
    i < (stepOp o t).nextId ∧
    ∀ c' ∈ (stepOp o t).characters, c'.id = i → c'.isAiExtracted = false := by
  cases o with
  | addManual =>
    unfold stepOp
    by_cases hlen : t.characters.length < MAX_CHARACTERS
    · rw [if_pos hlen]
      refine ⟨Nat.lt_succ_of_lt hi, ?_⟩
      intro c' hc' hc'i
      rcases List.mem_append.mp hc' with hc' | hc'
      · exact hall c' hc' hc'i
      · rw [List.mem_singleton.mp hc']
        rfl
    · rw [if_neg hlen]
      exact ⟨hi, hall⟩
  | editField idx f v =>
    refine ⟨hi, ?_⟩
    show ∀ c' ∈ updateCharacterField idx f v t.characters, _
    rw [updateCharacterField_eq]
    cases hg : t.characters.get? idx with
    | none => exact hall
    | some d =>
      intro c' hc' hc'i
      rcases List.mem_or_eq_of_mem_set hc' with hc' | rfl
      · exact hall c' hc' hc'i
      · exact editedField_flag f v d
  | editWhole idx f v =>
    refine ⟨hi, ?_⟩
    show ∀ c' ∈ updateCharacter idx f v t.characters, _
    unfold updateCharacter
    cases hg : t.characters.get? idx with
    | none => exact hall
    | some d =>
      intro c' hc' hc'i
      rcases List.mem_or_eq_of_mem_set hc' with hc' | rfl
      · exact hall c' hc' hc'i
      · rfl
  | remove cid =>
    refine ⟨hi, ?_⟩
    intro c' hc' hc'i
    exact hall c' (List.mem_of_mem_filter hc') hc'i
  | accept cid =>
    refine ⟨hi, ?_⟩
    intro c' hc' hc'i
    obtain ⟨d, hd, rfl⟩ := List.mem_map.mp hc'
    by_cases hb : (d.id == cid) = true
    · rw [if_pos hb]
    · rw [if_neg hb]
      rw [if_neg hb] at hc'i
      exact hall d hd hc'i
  | extract es =>
    refine ⟨Nat.lt_of_lt_of_le hi (Nat.le_add_right _ _), ?_⟩
    intro c' hc' hc'i
    have := (extractionReplace_id_ge t.nextId es c' hc').1
    omega
  | approve cid =>
    refine ⟨hi, ?_⟩
    intro c' hc' hc'i
    obtain ⟨d, hd, rfl⟩ := List.mem_map.mp hc'
    rw [approveElem_flag]
    rw [approveElem_id] at hc'i
    exact hall d hd hc'i
  | startDesign cid =>
    refine ⟨hi, ?_⟩
    intro c' hc' hc'i
    obtain ⟨d, hd, rfl⟩ := List.mem_map.mp hc'
    rw [markElem_flag]
    rw [markElem_id] at hc'i
    exact hall d hd hc'i
  | finishDesign cid r =>
    refine ⟨hi, ?_⟩
    intro c' hc' hc'i
    obtain ⟨d, hd, rfl⟩ := List.mem_map.mp hc'
    rw [settleElem_flag]
    rw [settleElem_id] at hc'i
    exact hall d hd hc'i
  | regenerateStart cid =>
    refine ⟨hi, ?_⟩
    intro c' hc' hc'i
    obtain ⟨d, hd, rfl⟩ := List.mem_map.mp hc'
    have hflag : ((if (d.id == cid) = true then
        { d with isDesignLoading := true, designError := none,
                 generatedDesignUrl := none, approvedDesignUrl := none }
      else d) : Character).isAiExtracted = d.isAiExtracted := by
      split <;> rfl
    have hid2 : ((if (d.id == cid) = true then
        { d with isDesignLoading := true, designError := none,
                 generatedDesignUrl := none, approvedDesignUrl := none }
      else d) : Character).id = d.id := by
      split <;> rfl
    rw [hflag]
    rw [hid2] at hc'i
    exact hall d hd hc'i

/-- Zero or more registry operations. -/
inductive StepStar : RegistryState → RegistryState → Prop
  | refl (s : RegistryState) : StepStar s s
  | tail (o : CharOp) {s t : RegistryState} :
      StepStar s t → StepStar s (stepOp o t)

/-- Along any run, an id below the supply whose live characters all have the
flag cleared keeps that property. -/
theorem starMono {s s' : RegistryState} (h : StepStar s s') (i : Nat)
    (hi : i < s.nextId)
    (hall : ∀ d ∈ s.characters, d.id = i → d.isAiExtracted = false) :
    i < s'.nextId ∧
    ∀ c' ∈ s'.characters, c'.id = i → c'.isAiExtracted = false := by
  induction h with
  | refl s => exact ⟨hi, hall⟩
  | tail o hst ih =>
    obtain ⟨hi', hall'⟩ := ih hi hall
    exact stepOp_flag_mono o _ i hi' hall'

/-- Every reachable registry state satisfies the invariant. -/
theorem reachable_inv : ∀ s, Reachable s → RegistryInv s := by
  intro s h
  induction h with
  | init =>
    exact ⟨fun c hc => absurd hc (List.not_mem_nil c), List.nodup_nil⟩
  | step o hs ih => exact stepOp_inv o _ ih

/-- C7: provenance-flag lifecycle.  (1) Manual creation produces
`isAiExtracted = false`.  (2) A user edit of any textual field (either
editor's update function) leaves the edited slot with `isAiExtracted = false`
— in particular an AI-extracted character loses the flag on its first edit.
(3) Once every live character with a given id has the flag cleared, no
sequence of registry operations ever sets it back to true for that id (AI
extraction replaces the list with fresh-id characters, so it never
resurrects an existing id).  (4) Every reachable registry state satisfies the
id-freshness/distinctness invariant that (3) relies on. -/
theorem isAiExtracted_lifecycle_spec :
    (∀ n : Nat, (blankCharacter n).isAiExtracted = false) ∧
    (∀ (cs : List Character) (i : Nat) (f : TextField) (v : String)
        (d : Character),
      cs.get? i = some d →
      (updateCharacterField i f v cs).get? i = some (editedField f v d) ∧
      (editedField f v d).isAiExtracted = false ∧
      (updateCharacter i f v cs).get? i =
        some { setTextField f v d with isAiExtracted := false }) ∧
    (∀ {s s' : RegistryState}, StepStar s s' → RegistryInv s →
      ∀ c ∈ s.characters, c.isAiExtracted = false →
      ∀ c' ∈ s'.characters, c'.id = c.id → c'.isAiExtracted = false) ∧
    (∀ s, Reachable s → RegistryInv s) := by
  refine ⟨fun _ => rfl, ?_, ?_, reachable_inv⟩
  · intro cs i f v d hg
    refine ⟨?_, editedField_flag f v d, ?_⟩
    · rw [updateCharacterField_eq, hg, List.get?_set_eq, hg]
      rfl
    · unfold updateCharacter
      rw [hg, List.get?_set_eq, hg]
      rfl
  · intro s s' hstar hinv c hc hcf c' hc' hid
    have hi : c.id < s.nextId := hinv.1 c hc
    have hall : ∀ d ∈ s.characters, d.id = c.id → d.isAiExtracted = false := by
      intro d hd hdi
      rw [eq_of_same_id hinv.2 hd hc hdi]
      exact hcf
    exact (starMono hstar c.id hi hall).2 c' hc' hid

/-- An AI-extracted character (flag set), for the C7 witness. -/
def aiArin : Character := { id := 0, name := "Arin", isAiExtracted := true }

/-- A manually created character (flag clear), for the C7 witness. -/
def manualZed : Character := { id := 0, name := "Zed" }

/-- A one-character registry session, for the C7 witness. -/
def wRegState : RegistryState := { nextId := 1, characters := [manualZed] }

/-- C7 witness: the lifecycle theorem applied at concrete inputs — a fresh
manual character has the flag clear; editing an AI-extracted character clears
it; the clear flag survives a concrete step; and a concrete reachable state
satisfies the invariant. -/
theorem isAiExtracted_lifecycle_spec_witness :
    (blankCharacter 5).isAiExtracted = false ∧
    (editedField TextField.name "Zed" aiArin).isAiExtracted = false ∧
    manualZed.isAiExtracted = false ∧
    RegistryInv (stepOp CharOp.addManual {}) := by
  refine ⟨isAiExtracted_lifecycle_spec.1 5, ?_, ?_, ?_⟩
  · exact (isAiExtracted_lifecycle_spec.2.1 [aiArin] 0 TextField.name "Zed"
      aiArin rfl).2.1
  · have hinv : RegistryInv wRegState :=
      ⟨fun c hc => by rw [List.mem_singleton.mp hc]; decide, by decide⟩
    exact isAiExtracted_lifecycle_spec.2.2.1
      (StepStar.tail CharOp.addManual (StepStar.refl wRegState)) hinv
      manualZed (by decide) rfl manualZed (by decide) rfl
  · exact isAiExtracted_lifecycle_spec.2.2.2 _
      (Reachable.step CharOp.addManual Reachable.init)

/-! ## Scene-loop order and settlement machinery (C5, C6, C9) -/

theorem findIdx?_first {α : Type} (p : α → Bool) :
    ∀ (pre : List α) (x : α) (post : List α),
      (∀ d ∈ pre, p d = false) → p x = true →
      (pre ++ x :: post).findIdx? p = some pre.length := by
  intro pre
  induction pre with
  | nil =>
    intro x post _ hx
    simp [List.findIdx?_cons, hx]
  | cons d t ih =>
    intro x post hpre hx
    have hd := hpre d (List.mem_cons_self _ _)
    rw [List.cons_append, List.findIdx?_cons, hd]
    simp only [Bool.false_eq_true, if_false]
    rw [List.findIdx?_succ, ih x post (fun y hy => hpre y (List.mem_cons_of_mem _ hy)) hx]
    rfl

theorem get?_append_len {α : Type} :
    ∀ (pre : List α) (x : α) (post : List α),
      (pre ++ x :: post).get? pre.length = some x := by
  intro pre
  induction pre with
  | nil => intro x post; rfl
  | cons d t ih =>
    intro x post
    simp only [List.cons_append, List.length_cons, List.get?_cons_succ]
    exact ih x post

theorem set_append_len {α : Type} :
    ∀ (pre : List α) (x y : α) (post : List α),
      (pre ++ x :: post).set pre.length y = pre ++ y :: post := by
  intro pre
  induction pre with
  | nil => intro x y post; rfl
  | cons d t ih =>
    intro x y post
    simp only [List.cons_append, List.length_cons, List.set_cons_succ]
    rw [ih x y post]

/-- The shape of the progressive `setScenes` update while the loop holds
`done ++ scene :: rest`: exactly the just-processed slot is replaced. -/
theorem progressiveUpdate_shape (done : List Scene) (scene upd : Scene)
    (rest : List Scene)
    (hdone : ∀ d ∈ done, (d.id == scene.id) = false)
    (hupd : (upd.id == scene.id) = true) :
    progressiveUpdate (done ++ [upd]) scene.id (done ++ scene :: rest) =
      done ++ upd :: rest := by
  have h1 : (done ++ scene :: rest).findIdx? (fun sc => sc.id == scene.id) =
      some done.length :=
    findIdx?_first _ done scene rest hdone (by simp)
  have h2 : (done ++ scene :: rest).get? done.length = some scene :=
    get?_append_len done scene rest
  have h3 : (done ++ [upd]).find? (fun us => us.id == scene.id) = some upd :=
    find?_first_match _ done [] upd hdone hupd
  simp only [progressiveUpdate, h1, h2, h3, Option.getD_some]
  exact set_append_len done scene upd rest

theorem settleSceneV1_id (oracle : Nat → Except String String) (s : Scene) :
    (settleSceneV1 oracle s).id = s.id := by
  unfold settleSceneV1
  cases oracle s.id <;> rfl

theorem settleSceneV1_core (oracle : Nat → Except String String) (s : Scene) :
    (settleSceneV1 oracle s).core = s.core := by
  unfold settleSceneV1
  cases oracle s.id <;> rfl

theorem settleSceneV2_id (oracle : Nat → Except String String) (s : Scene) :
    (settleSceneV2 oracle s).id = s.id := by
  unfold settleSceneV2
  cases oracle s.id <;> rfl

theorem settleSceneV2_core (oracle : Nat → Except String String) (s : Scene) :
    (settleSceneV2 oracle s).core = s.core := by
  unfold settleSceneV2
  cases oracle s.id <;> rfl

/-- Full characterization of the sequential scene loop: the accumulated
`updatedScenes` is the settled pending list in order; the live scene list ends
equal to it; one image call is issued per scene in order; and every published
snapshot preserves the ids and descriptive cores of the timeline. -/
theorem sceneLoop_spec (settle : Scene → Scene)
    (resolve : List String → List ReferenceImagePart)
    (hsid : ∀ s, (settle s).id = s.id)
    (hscore : ∀ s, (settle s).core = s.core) :
    ∀ (pending done cur : List Scene) (calls : List GatewayCall)
      (pubs : List (List Scene)),
      cur = done ++ pending →
      (∀ d ∈ done, ∀ q ∈ pending, (d.id == q.id) = false) →
      (pending.map (fun s => s.id)).Nodup →
      (sceneLoop settle resolve pending done cur calls pubs).1 =
          done ++ pending.map settle ∧
        (sceneLoop settle resolve pending done cur calls pubs).2.1 =
          done ++ pending.map settle ∧
        (sceneLoop settle resolve pending done cur calls pubs).2.2.1 =
          calls ++ pending.map (fun s =>
            GatewayCall.generateSceneImage s.imagePrompt
              (resolve s.charactersInScene)) ∧
        ∀ p ∈ (sceneLoop settle resolve pending done cur calls pubs).2.2.2,
          p ∈ pubs ∨
            (p.map (fun s => s.id) = (done ++ pending).map (fun s => s.id) ∧
             p.map Scene.core = (done ++ pending).map Scene.core) := by
  intro pending
  induction pending with
  | nil =>
    intro done cur calls pubs hcur _ _
    refine ⟨?_, ?_, ?_, ?_⟩
    · show done = done ++ []
      rw [List.append_nil]
    · show cur = done ++ []
      exact hcur
    · show calls = calls ++ []
      rw [List.append_nil]
    · intro p hp
      exact Or.inl hp
  | cons scene rest ih =>
    intro done cur calls pubs hcur hdisj hnodup
    have hdone1 : ∀ d ∈ done, (d.id == scene.id) = false :=
      fun d hd => hdisj d hd scene (List.mem_cons_self _ _)
    have hupd : ((settle scene).id == scene.id) = true := by
      rw [hsid scene]
      simp
    have hcur2 : progressiveUpdate (done ++ [settle scene]) scene.id cur =
        (done ++ [settle scene]) ++ rest := by
      rw [hcur]
      rw [progressiveUpdate_shape done scene (settle scene) rest hdone1 hupd]
      rw [List.append_assoc]
      rfl
    have hdisj2 : ∀ d ∈ done ++ [settle scene], ∀ q ∈ rest,
        (d.id == q.id) = false := by
      intro d hd q hq
      rcases List.mem_append.mp hd with hd | hd
      · exact hdisj d hd q (List.mem_cons_of_mem _ hq)
      · rw [List.mem_singleton.mp hd]
        rw [beq_eq_false_iff_ne]
        rw [hsid scene]
        intro he
        have hni : scene.id ∉ rest.map (fun s => s.id) :=
          (List.nodup_cons.mp (by simpa using hnodup)).1
        exact hni (he ▸ List.mem_map_of_mem _ hq)
    have hnodup2 : (rest.map (fun s => s.id)).Nodup :=
      (List.nodup_cons.mp (by simpa using hnodup)).2
    have loopstep : sceneLoop settle resolve (scene :: rest) done cur calls pubs =
        sceneLoop settle resolve rest (done ++ [settle scene])
          (progressiveUpdate (done ++ [settle scene]) scene.id cur)
          (calls ++ [GatewayCall.generateSceneImage scene.imagePrompt
            (resolve scene.charactersInScene)])
          (pubs ++ [progressiveUpdate (done ++ [settle scene]) scene.id cur]) := rfl
    rw [loopstep, hcur2]
    obtain ⟨ih1, ih2, ih3, ih4⟩ := ih (done ++ [settle scene])
      ((done ++ [settle scene]) ++ rest) _ _ rfl hdisj2 hnodup2
    refine ⟨?_, ?_, ?_, ?_⟩
    · rw [ih1, List.append_assoc]
      rfl
    · rw [ih2, List.append_assoc]
      rfl
    · rw [ih3, List.append_assoc]
      rfl
    · intro p hp
      rcases ih4 p hp with hp' | hp'
      · rcases List.mem_append.mp hp' with hp' | hp'
        · exact Or.inl hp'
        · right
          rw [List.mem_singleton.mp hp']
          constructor
          · rw [List.append_assoc]
            show ((done ++ settle scene :: rest).map _) = _
            rw [List.map_append, List.map_append, List.map_cons, List.map_cons,
              hsid scene]
          · rw [List.append_assoc]
            show ((done ++ settle scene :: rest).map _) = _
            rw [List.map_append, List.map_append, List.map_cons, List.map_cons,
              hscore scene]
      · right
        obtain ⟨hpi, hpc⟩ := hp'
        constructor
        · rw [hpi, List.append_assoc]
          show ((done ++ settle scene :: rest).map _) = _
          rw [List.map_append, List.map_append, List.map_cons, List.map_cons,
            hsid scene]
        · rw [hpc, List.append_assoc]
          show ((done ++ settle scene :: rest).map _) = _
          rw [List.map_append, List.map_append, List.map_cons, List.map_cons,
            hscore scene]

theorem materializeScenes_ids (rs : List SceneResponse) :
    (materializeScenes rs).map (fun s => s.id) = List.range rs.length := by
  unfold materializeScenes
  rw [List.map_map]
  have h1 : ((List.range rs.length).zip rs).map
      ((fun s => s.id) ∘ (fun p : Nat × SceneResponse =>
        ({ id := p.1, sceneSummary := p.2.sceneSummary,
           charactersInScene := p.2.charactersInScene,
           settingDescription := p.2.settingDescription,
           actionDescription := p.2.actionDescription,
           emotionalBeat := p.2.emotionalBeat,
           imagePrompt := p.2.imagePrompt } : Scene))) =
      ((List.range rs.length).zip rs).map Prod.fst :=
    List.map_congr_left (fun p _ => rfl)
  rw [h1, List.map_fst_zip]
  rw [List.length_range]

theorem materializeScenes_cores (rs : List SceneResponse) :
    (materializeScenes rs).map Scene.core = rs := by
  unfold materializeScenes
  rw [List.map_map]
  have h1 : ((List.range rs.length).zip rs).map
      (Scene.core ∘ (fun p : Nat × SceneResponse =>
        ({ id := p.1, sceneSummary := p.2.sceneSummary,
           charactersInScene := p.2.charactersInScene,
           settingDescription := p.2.settingDescription,
           actionDescription := p.2.actionDescription,
           emotionalBeat := p.2.emotionalBeat,
           imagePrompt := p.2.imagePrompt } : Scene))) =
      ((List.range rs.length).zip rs).map Prod.snd :=
    List.map_congr_left (fun p _ => rfl)
  rw [h1, List.map_snd_zip]
  rw [List.length_range]

theorem finallyBlockV1_scenes (p : GenerationPhase) (s : AppState1)
    (tr : List GenerationPhase) : (finallyBlockV1 p s tr).1.scenes = s.scenes := by
  simp only [finallyBlockV1]
  split <;> split <;> rfl

theorem finallyBlockV1_error (p : GenerationPhase) (s : AppState1)
    (tr : List GenerationPhase) : (finallyBlockV1 p s tr).1.error = s.error := by
  simp only [finallyBlockV1]
  split <;> split <;> rfl

theorem finallyBlockV1_storyText (p : GenerationPhase) (s : AppState1)
    (tr : List GenerationPhase) :
    (finallyBlockV1 p s tr).1.storyText = s.storyText := by
  simp only [finallyBlockV1]
  split <;> split <;> rfl

theorem finallyBlockV1_characters (p : GenerationPhase) (s : AppState1)
    (tr : List GenerationPhase) :
    (finallyBlockV1 p s tr).1.characters = s.characters := by
  simp only [finallyBlockV1]
  split <;> split <;> rfl

theorem finallyBlockV1_phase_reset {p : GenerationPhase} (s : AppState1)
    (tr : List GenerationPhase) (h : p ≠ .ERROR ∧ p ≠ .COMPLETE) :
    (finallyBlockV1 p s tr).1.currentPhase = GenerationPhase.IDLE := by
  simp only [finallyBlockV1]
  rw [if_pos h]
  split <;> rfl

/-- The success-path run of `handleGenerateVisualStory` in terms of the scene
loop: the final scene list, the gateway calls, and the published snapshots. -/
theorem visualStory_success_run (s0 : AppState1) (rs : List SceneResponse)
    (img : Nat → Except String String)
    (hphase : (s0.currentPhase == GenerationPhase.ERROR) = false)
    (hstory : (jsTrim s0.storyText == "") = false)
    (hgate : unapprovedGateV1 s0.characters = [])
    (hrs : rs ≠ []) :
    (handleGenerateVisualStory s0 (Except.ok (some rs)) img).finalState.scenes =
        (sceneLoop (settleSceneV1 img) (resolveRefsV1 s0.characters)
          (materializeScenes rs) [] (materializeScenes rs) [] []).1 ∧
    (handleGenerateVisualStory s0 (Except.ok (some rs)) img).calls =
        GatewayCall.deconstructStory s0.storyText ::
          (sceneLoop (settleSceneV1 img) (resolveRefsV1 s0.characters)
            (materializeScenes rs) [] (materializeScenes rs) [] []).2.2.1 ∧
    (handleGenerateVisualStory s0 (Except.ok (some rs)) img).publishedScenes =
        [[], materializeScenes rs] ++
          (sceneLoop (settleSceneV1 img) (resolveRefsV1 s0.characters)
            (materializeScenes rs) [] (materializeScenes rs) [] []).2.2.2 ++
          [(sceneLoop (settleSceneV1 img) (resolveRefsV1 s0.characters)
            (materializeScenes rs) [] (materializeScenes rs) [] []).1] := by
  have hgatei : ((unapprovedGateV1 s0.characters).isEmpty == false) = false := by
    rw [hgate]
    rfl
  have hrsb : rs.isEmpty = false := by
    rw [List.isEmpty_eq_false]
    exact hrs
  refine ⟨?_, ?_, ?_⟩ <;>
    simp only [handleGenerateVisualStory, hphase, hstory, hgate, hrsb,
      Bool.false_eq_true, if_false, List.isEmpty_nil, Bool.not_true,
      finallyBlockV1_scenes] <;>
    rfl

/-- C5: the SceneTimeline is materialized with ids assigned in response order
(`0, 1, 2, …` along the response array), and both the scene ids and the
descriptive scene contents are preserved, in response order, in the final
scene list and in every list published during the image-generation loop (the
`.drop 1` skips the initial `setScenes([])` clear that precedes
deconstruction); no sorting or re-ranking occurs. -/
theorem sceneOrder_spec :
    (∀ rs : List SceneResponse,
      (materializeScenes rs).map (fun s => s.id) = List.range rs.length ∧
      (materializeScenes rs).map Scene.core = rs) ∧
    (∀ (s0 : AppState1) (rs : List SceneResponse)
        (img : Nat → Except String String),
      (s0.currentPhase == GenerationPhase.ERROR) = false →
      (jsTrim s0.storyText == "") = false →
      unapprovedGateV1 s0.characters = [] →
      rs ≠ [] →
      (handleGenerateVisualStory s0 (Except.ok (some rs)) img).finalState.scenes.map
          (fun s => s.id) = List.range rs.length ∧
      (handleGenerateVisualStory s0 (Except.ok (some rs)) img).finalState.scenes.map
          Scene.core = rs ∧
      ∀ p ∈ (handleGenerateVisualStory s0 (Except.ok (some rs)) img).publishedScenes.drop 1,
        p.map (fun s => s.id) = List.range rs.length ∧
        p.map Scene.core = rs) := by
  refine ⟨fun rs => ⟨materializeScenes_ids rs, materializeScenes_cores rs⟩, ?_⟩
  intro s0 rs img hphase hstory hgate hrs
  obtain ⟨hscenes, _, hpubs⟩ := visualStory_success_run s0 rs img hphase hstory hgate hrs
  have hnodup : ((materializeScenes rs).map (fun s => s.id)).Nodup := by
    rw [materializeScenes_ids]
    exact List.nodup_range _
  obtain ⟨l1, _, _, l4⟩ := sceneLoop_spec (settleSceneV1 img)
    (resolveRefsV1 s0.characters) (settleSceneV1_id img) (settleSceneV1_core img)
    (materializeScenes rs) [] (materializeScenes rs) [] []
    (List.nil_append _).symm (fun d hd => absurd hd (List.not_mem_nil d)) hnodup
  have hsettledIds : ((materializeScenes rs).map (settleSceneV1 img)).map
      (fun s => s.id) = List.range rs.length := by
    rw [List.map_map]
    have : (materializeScenes rs).map ((fun s => s.id) ∘ settleSceneV1 img) =
        (materializeScenes rs).map (fun s => s.id) :=
      List.map_congr_left (fun s _ => settleSceneV1_id img s)
    rw [this, materializeScenes_ids]
  have hsettledCores : ((materializeScenes rs).map (settleSceneV1 img)).map
      Scene.core = rs := by
    rw [List.map_map]
    have : (materializeScenes rs).map (Scene.core ∘ settleSceneV1 img) =
        (materializeScenes rs).map Scene.core :=
      List.map_congr_left (fun s _ => settleSceneV1_core img s)
    rw [this, materializeScenes_cores]
  have hl1 : (sceneLoop (settleSceneV1 img) (resolveRefsV1 s0.characters)
      (materializeScenes rs) [] (materializeScenes rs) [] []).1 =
      (materializeScenes rs).map (settleSceneV1 img) := by
    rw [l1, List.nil_append]
  refine ⟨?_, ?_, ?_⟩
  · rw [hscenes, hl1, hsettledIds]
  · rw [hscenes, hl1, hsettledCores]
  · intro p hp
    rw [hpubs] at hp
    have hp' : p = materializeScenes rs ∨
        p ∈ (sceneLoop (settleSceneV1 img) (resolveRefsV1 s0.characters)
          (materializeScenes rs) [] (materializeScenes rs) [] []).2.2.2 ∨
        p = (sceneLoop (settleSceneV1 img) (resolveRefsV1 s0.characters)
          (materializeScenes rs) [] (materializeScenes rs) [] []).1 := by
      have : p ∈ materializeScenes rs ::
          ((sceneLoop (settleSceneV1 img) (resolveRefsV1 s0.characters)
            (materializeScenes rs) [] (materializeScenes rs) [] []).2.2.2 ++
           [(sceneLoop (settleSceneV1 img) (resolveRefsV1 s0.characters)
            (materializeScenes rs) [] (materializeScenes rs) [] []).1]) := hp
      rcases List.mem_cons.mp this with h | h
      · exact Or.inl h
      · rcases List.mem_append.mp h with h | h
        · exact Or.inr (Or.inl h)
        · exact Or.inr (Or.inr (List.mem_singleton.mp h))
    rcases hp' with rfl | hp' | rfl
    · exact ⟨materializeScenes_ids rs, materializeScenes_cores rs⟩
    · rcases l4 p hp' with h | h
      · exact absurd h (List.not_mem_nil p)
      · rw [List.nil_append] at h
        exact ⟨by rw [h.1, materializeScenes_ids],
               by rw [h.2, materializeScenes_cores]⟩
    · rw [hl1]
      exact ⟨hsettledIds, hsettledCores⟩

/-- A two-scene deconstruction response, for the C5 witness. -/
def twoScenes : List SceneResponse :=
  [{ sceneSummary := "A" }, { sceneSummary := "B" }]

/-- The variant-1 session for the C5 witness. -/
def orderWitnessState : AppState1 := { storyText := "Once" }

/-- C5 witness: the order theorem applied at a concrete two-scene response —
ids are `[0, 1]` and cores stay `[A, B]` in the final scene list and in every
post-materialization published list. -/
theorem sceneOrder_spec_witness :
    (handleGenerateVisualStory orderWitnessState (Except.ok (some twoScenes))
        (fun _ => Except.ok "u")).finalState.scenes.map (fun s => s.id) =
      List.range twoScenes.length ∧
    (handleGenerateVisualStory orderWitnessState (Except.ok (some twoScenes))
        (fun _ => Except.ok "u")).finalState.scenes.map Scene.core = twoScenes := by
  obtain ⟨h1, h2, _⟩ := sceneOrder_spec.2 orderWitnessState twoScenes
    (fun _ => Except.ok "u") (by decide) (by decide) (by decide) (by decide)
  exact ⟨h1, h2⟩

theorem finallyBlockV1_phase_keep {p : GenerationPhase} (s : AppState1)
    (tr : List GenerationPhase) (h : ¬(p ≠ .ERROR ∧ p ≠ .COMPLETE)) :
    (finallyBlockV1 p s tr).1.currentPhase = s.currentPhase := by
  simp only [finallyBlockV1]
  rw [if_neg h]
  split <;> rfl

/-- The empty-deconstruction run of `handleGenerateVisualStory`: the failure
message is surfaced, the phase ends Idle (the branch sets Idle and the
`finally` either re-sets it or leaves it), only the deconstruction call was
made, and the story text and characters are untouched. -/
theorem visualStory_empty_run (s0 : AppState1)
    (img : Nat → Except String String) (resp : Option (List SceneResponse))
    (hphase : (s0.currentPhase == GenerationPhase.ERROR) = false)
    (hstory : (jsTrim s0.storyText == "") = false)
    (hgate : unapprovedGateV1 s0.characters = [])
    (hresp : resp = none ∨ resp = some []) :
    (handleGenerateVisualStory s0 (Except.ok resp) img).finalState.error =
      some "Failed to deconstruct story or no scenes were found. Try a different story or adjust parameters." ∧
    (handleGenerateVisualStory s0 (Except.ok resp) img).finalState.currentPhase =
      GenerationPhase.IDLE ∧
    (handleGenerateVisualStory s0 (Except.ok resp) img).calls =
      [GatewayCall.deconstructStory s0.storyText] ∧
    (handleGenerateVisualStory s0 (Except.ok resp) img).finalState.storyText =
      s0.storyText ∧
    (handleGenerateVisualStory s0 (Except.ok resp) img).finalState.characters =
      s0.characters := by
  have hgatei : ((unapprovedGateV1 s0.characters).isEmpty == false) = false := by
    rw [hgate]
    rfl
  have hphase' : ∀ (s2 : AppState1) (tr : List GenerationPhase),
      s2.currentPhase = GenerationPhase.IDLE →
      (finallyBlockV1 s0.currentPhase s2 tr).1.currentPhase =
        GenerationPhase.IDLE := by
    intro s2 tr hs2
    by_cases h : s0.currentPhase ≠ .ERROR ∧ s0.currentPhase ≠ .COMPLETE
    · exact finallyBlockV1_phase_reset s2 tr h
    · rw [finallyBlockV1_phase_keep s2 tr h]
      exact hs2
  rcases hresp with rfl | rfl <;>
    exact ⟨by simp only [handleGenerateVisualStory, hphase, hstory, hgate,
        Bool.false_eq_true, if_false, List.isEmpty_nil, Bool.not_true, if_true,
        finallyBlockV1_error],
      by simp only [handleGenerateVisualStory, hphase, hstory, hgate,
        Bool.false_eq_true, if_false, List.isEmpty_nil, Bool.not_true, if_true]
         exact hphase' _ _ rfl,
      by simp only [handleGenerateVisualStory, hphase, hstory, hgate,
        Bool.false_eq_true, if_false, List.isEmpty_nil, Bool.not_true, if_true],
      by simp only [handleGenerateVisualStory, hphase, hstory, hgate,
        Bool.false_eq_true, if_false, List.isEmpty_nil, Bool.not_true, if_true,
        finallyBlockV1_storyText],
      by simp only [handleGenerateVisualStory, hphase, hstory, hgate,
        Bool.false_eq_true, if_false, List.isEmpty_nil, Bool.not_true, if_true,
        finallyBlockV1_characters]⟩

/-- When the gate passes, every run of `handleGenerateVisualStory` issues the
deconstruction call first, whatever the AI outcomes: the state still permits
(re-)attempting the storyboard build. -/
theorem visualStory_calls_head (s0 : AppState1)
    (d : Except String (Option (List SceneResponse)))
    (img : Nat → Except String String)
    (hphase : (s0.currentPhase == GenerationPhase.ERROR) = false)
    (hstory : (jsTrim s0.storyText == "") = false)
    (hgate : unapprovedGateV1 s0.characters = []) :
    (handleGenerateVisualStory s0 d img).calls.head? =
      some (GatewayCall.deconstructStory s0.storyText) := by
  cases d with
  | error m =>
    simp only [handleGenerateVisualStory, hphase, hstory, hgate,
      Bool.false_eq_true, if_false, List.isEmpty_nil, Bool.not_true, if_true]
    rfl
  | ok resp =>
    cases resp with
    | none =>
      simp only [handleGenerateVisualStory, hphase, hstory, hgate,
        Bool.false_eq_true, if_false, List.isEmpty_nil, Bool.not_true, if_true]
      rfl
    | some rs =>
      by_cases hrs : rs.isEmpty
      · simp only [handleGenerateVisualStory, hphase, hstory, hgate, hrs,
          Bool.false_eq_true, if_false, List.isEmpty_nil, Bool.not_true, if_true]
        rfl
      · rw [Bool.not_eq_true] at hrs
        simp only [handleGenerateVisualStory, hphase, hstory, hgate, hrs,
          Bool.false_eq_true, if_false, List.isEmpty_nil, Bool.not_true, if_true]
        rfl

/-- The empty-deconstruction run of `handleGenerateStoryboard`: the failure
goes through `handleError` (status becomes Error with the failure message),
the view returns to design review, only the deconstruction call was made, and
the story text and characters are untouched. -/
theorem storyboard_empty_run (s0 : AppState2)
    (img : Nat → Except String String) (resp : Option (List SceneResponse))
    (hapi : apiKeyErrorActive s0 = false)
    (hgp : ((!(namedCharactersOf s0.characters).isEmpty) &&
      (namedCharactersOf s0.characters).any
        (fun c => !truthy c.approvedDesignUrl)) = false)
    (hresp : resp = none ∨ resp = some []) :
    (handleGenerateStoryboard s0 (Except.ok resp) img).finalState.globalError =
      some "Failed to deconstruct story or no scenes found." ∧
    (handleGenerateStoryboard s0 (Except.ok resp) img).finalState.operationStatus =
      OperationStatus.ERROR ∧
    (handleGenerateStoryboard s0 (Except.ok resp) img).finalState.currentView =
      AppView.characterDesignReview ∧
    (handleGenerateStoryboard s0 (Except.ok resp) img).calls =
      [GatewayCall.deconstructStory s0.storyText] ∧
    (handleGenerateStoryboard s0 (Except.ok resp) img).finalState.storyText =
      s0.storyText ∧
    (handleGenerateStoryboard s0 (Except.ok resp) img).finalState.characters =
      s0.characters := by
  rcases hresp with rfl | rfl <;>
    refine ⟨?_, ?_, ?_, ?_, ?_, ?_⟩ <;>
    · simp only [handleGenerateStoryboard, hapi, hgp, Bool.false_eq_true,
        if_false, List.isEmpty_nil, if_true, handleError]
      try rfl

/-- When the gate passes, every run of `handleGenerateStoryboard` issues the
deconstruction call first, whatever the AI outcomes. -/
theorem storyboard_calls_head (s0 : AppState2)
    (d : Except String (Option (List SceneResponse)))
    (img : Nat → Except String String)
    (hapi : apiKeyErrorActive s0 = false)
    (hgp : ((!(namedCharactersOf s0.characters).isEmpty) &&
      (namedCharactersOf s0.characters).any
        (fun c => !truthy c.approvedDesignUrl)) = false) :
    (handleGenerateStoryboard s0 d img).calls.head? =
      some (GatewayCall.deconstructStory s0.storyText) := by
  cases d with
  | error m =>
    simp only [handleGenerateStoryboard, hapi, hgp, Bool.false_eq_true,
      if_false, if_true]
    rfl
  | ok resp =>
    cases resp with
    | none =>
      simp only [handleGenerateStoryboard, hapi, hgp, Bool.false_eq_true,
        if_false, if_true]
      rfl
    | some rs =>
      by_cases hrs : rs.isEmpty
      · simp only [handleGenerateStoryboard, hapi, hgp, hrs,
          Bool.false_eq_true, if_false, if_true]
        rfl
      · rw [Bool.not_eq_true] at hrs
        simp only [handleGenerateStoryboard, hapi, hgp, hrs,
          Bool.false_eq_true, if_false, if_true]
        rfl

/-- The variant-2 session used for the C9 counterexample. -/
def c9State : AppState2 :=
  { currentView := .characterDesignReview, storyText := "Once upon a time" }

/-- C9, claim as stated, refuted: in variant 2, an empty deconstruction
response sends the workflow through `handleError`, so the operation status
*does* become the Error state (rather than resetting to a non-error
status). -/
theorem emptyDeconstruction_enters_error_status :
    (handleGenerateStoryboard c9State (Except.ok (some []))
      (fun _ => Except.ok "u")).finalState.operationStatus =
      OperationStatus.ERROR := by decide

/-- C9 (amended): on an empty or missing deconstruction scene list, both
variants report the failure and leave re-attempting possible.  Variant 1
resets the phase to Idle with the error surfaced.  Variant 2 instead sets the
operation status to Error with the failure message and returns the view to
design review — but because its error guard only blocks API-key messages,
this Error state is not unrecoverable: re-invoking the storyboard build from
the resulting state (in either variant) again issues the deconstruction
call. -/
theorem emptyDeconstruction_recovery_spec :
    (∀ (s0 : AppState1) (img : Nat → Except String String)
        (resp : Option (List SceneResponse)),
      (s0.currentPhase == GenerationPhase.ERROR) = false →
      (jsTrim s0.storyText == "") = false →
      unapprovedGateV1 s0.characters = [] →
      (resp = none ∨ resp = some []) →
      (handleGenerateVisualStory s0 (Except.ok resp) img).finalState.error =
        some "Failed to deconstruct story or no scenes were found. Try a different story or adjust parameters." ∧
      (handleGenerateVisualStory s0 (Except.ok resp) img).finalState.currentPhase =
        GenerationPhase.IDLE ∧
      (handleGenerateVisualStory s0 (Except.ok resp) img).calls =
        [GatewayCall.deconstructStory s0.storyText] ∧
      ∀ (d2 : Except String (Option (List SceneResponse)))
        (i2 : Nat → Except String String),
        (handleGenerateVisualStory
          (handleGenerateVisualStory s0 (Except.ok resp) img).finalState
          d2 i2).calls.head? =
          some (GatewayCall.deconstructStory s0.storyText)) ∧
    (∀ (s0 : AppState2) (img : Nat → Except String String)
        (resp : Option (List SceneResponse)),
      apiKeyErrorActive s0 = false →
      ((!(namedCharactersOf s0.characters).isEmpty) &&
        (namedCharactersOf s0.characters).any
          (fun c => !truthy c.approvedDesignUrl)) = false →
      (resp = none ∨ resp = some []) →
      (handleGenerateStoryboard s0 (Except.ok resp) img).finalState.globalError =
        some "Failed to deconstruct story or no scenes found." ∧
      (handleGenerateStoryboard s0 (Except.ok resp) img).finalState.operationStatus =
        OperationStatus.ERROR ∧
      (handleGenerateStoryboard s0 (Except.ok resp) img).finalState.currentView =
        AppView.characterDesignReview ∧
      (handleGenerateStoryboard s0 (Except.ok resp) img).calls =
        [GatewayCall.deconstructStory s0.storyText] ∧
      ∀ (d2 : Except String (Option (List SceneResponse)))
        (i2 : Nat → Except String String),
        (handleGenerateStoryboard
          (handleGenerateStoryboard s0 (Except.ok resp) img).finalState
          d2 i2).calls.head? =
          some (GatewayCall.deconstructStory s0.storyText)) := by
  constructor
  · intro s0 img resp hphase hstory hgate hresp
    obtain ⟨herr, hph, hcalls, hst, hch⟩ :=
      visualStory_empty_run s0 img resp hphase hstory hgate hresp
    refine ⟨herr, hph, hcalls, ?_⟩
    intro d2 i2
    have h1 : ((handleGenerateVisualStory s0 (Except.ok resp) img).finalState.currentPhase ==
        GenerationPhase.ERROR) = false := by
      rw [hph]
      rfl
    have h2 : (jsTrim (handleGenerateVisualStory s0 (Except.ok resp) img).finalState.storyText == "") = false := by
      rw [hst]
      exact hstory
    have h3 : unapprovedGateV1
        (handleGenerateVisualStory s0 (Except.ok resp) img).finalState.characters = [] := by
      rw [hch]
      exact hgate
    have := visualStory_calls_head _ d2 i2 h1 h2 h3
    rwa [hst] at this
  · intro s0 img resp hapi hgp hresp
    obtain ⟨herr, hstat, hview, hcalls, hst, hch⟩ :=
      storyboard_empty_run s0 img resp hapi hgp hresp
    refine ⟨herr, hstat, hview, hcalls, ?_⟩
    intro d2 i2
    have h1 : apiKeyErrorActive
        (handleGenerateStoryboard s0 (Except.ok resp) img).finalState = false := by
      have hsc : strContains "Failed to deconstruct story or no scenes found."
          "API Key" = false := by decide
      unfold apiKeyErrorActive
      simp only [herr, hsc, Bool.and_false]
    have h2 : ((!(namedCharactersOf
        (handleGenerateStoryboard s0 (Except.ok resp) img).finalState.characters).isEmpty) &&
        (namedCharactersOf
          (handleGenerateStoryboard s0 (Except.ok resp) img).finalState.characters).any
          (fun c => !truthy c.approvedDesignUrl)) = false := by
      rw [hch]
      exact hgp
    have := storyboard_calls_head _ d2 i2 h1 h2
    rwa [hst] at this

/-- C9 witness: the recovery theorem applied at concrete states with an empty
deconstruction response — in both variants the failure is reported and the
follow-up invocation issues the deconstruction call again. -/
theorem emptyDeconstruction_recovery_spec_witness :
    (handleGenerateVisualStory orderWitnessState (Except.ok (some []))
      (fun _ => Except.ok "u")).finalState.currentPhase = GenerationPhase.IDLE ∧
    (handleGenerateVisualStory
      (handleGenerateVisualStory orderWitnessState (Except.ok (some []))
        (fun _ => Except.ok "u")).finalState
      (Except.ok (some twoScenes)) (fun _ => Except.ok "u")).calls.head? =
      some (GatewayCall.deconstructStory "Once") ∧
    (handleGenerateStoryboard c9State (Except.ok none)
      (fun _ => Except.ok "u")).finalState.globalError =
      some "Failed to deconstruct story or no scenes found." ∧
    (handleGenerateStoryboard
      (handleGenerateStoryboard c9State (Except.ok none)
        (fun _ => Except.ok "u")).finalState
      (Except.ok (some twoScenes)) (fun _ => Except.ok "u")).calls.head? =
      some (GatewayCall.deconstructStory "Once upon a time") := by
  obtain ⟨_, hph, _, hre⟩ := emptyDeconstruction_recovery_spec.1 orderWitnessState
    (fun _ => Except.ok "u") (some []) (by decide) (by decide) (by decide)
    (Or.inr rfl)
  obtain ⟨herr2, _, _, _, hre2⟩ := emptyDeconstruction_recovery_spec.2 c9State
    (fun _ => Except.ok "u") none (by decide) (by decide) (Or.inl rfl)
  exact ⟨hph, hre (Except.ok (some twoScenes)) (fun _ => Except.ok "u"),
    herr2, hre2 (Except.ok (some twoScenes)) (fun _ => Except.ok "u")⟩

/-! ## C1: the storyboard approval gate -/

/-- The variant-1 session for the C1 counterexample: one named character
("Arin") with neither a generated nor an approved design. -/
def c1State : AppState1 :=
  { storyText := "s", characters := [{ id := 0, name := "Arin" }] }

/-- C1, claim as stated, refuted: in variant 1's `handleGenerateVisualStory`,
a named character with no approved design does not block the build when it
also has no generated design — the deconstruction AIGateway call is issued
although the claim requires the call to fail with no AIGateway call. -/
theorem gate_skips_never_generated_character :
    truthy ({ id := 0, name := "Arin" } : Character).approvedDesignUrl = false ∧
    (handleGenerateVisualStory c1State (Except.error "x")
      (fun _ => Except.ok "u")).calls = [GatewayCall.deconstructStory "s"] := by
  decide

/-- Variant 2's gate: whenever some named character lacks a truthy approved
design, the build fails with a validation error (a generic message, not
naming the characters), makes no AIGateway call, leaves the scene list
unchanged, sets the status to Idle and switches the view to design review. -/
theorem storyboard_gate_blocks (s0 : AppState2)
    (d : Except String (Option (List SceneResponse)))
    (img : Nat → Except String String)
    (hapi : apiKeyErrorActive s0 = false)
    (c : Character) (hc : c ∈ namedCharactersOf s0.characters)
    (happ : truthy c.approvedDesignUrl = false) :
    (handleGenerateStoryboard s0 d img).calls = [] ∧
    (handleGenerateStoryboard s0 d img).finalState.scenes = s0.scenes ∧
    (handleGenerateStoryboard s0 d img).finalState.globalError =
      some "Please approve all named character designs before generating the storyboard." ∧
    (handleGenerateStoryboard s0 d img).finalState.operationStatus =
      OperationStatus.IDLE ∧
    (handleGenerateStoryboard s0 d img).finalState.currentView =
      AppView.characterDesignReview := by
  have hne : (namedCharactersOf s0.characters).isEmpty = false := by
    rw [List.isEmpty_eq_false]
    exact List.ne_nil_of_mem hc
  have hany : (namedCharactersOf s0.characters).any
      (fun c => !truthy c.approvedDesignUrl) = true :=
    List.any_eq_true.mpr ⟨c, hc, by rw [happ]; rfl⟩
  have hcond : ((!(namedCharactersOf s0.characters).isEmpty) &&
      (namedCharactersOf s0.characters).any
        (fun c => !truthy c.approvedDesignUrl)) = true := by
    rw [hne, hany]
    rfl
  refine ⟨?_, ?_, ?_, ?_, ?_⟩ <;>
    · simp only [handleGenerateStoryboard, hapi, hcond, Bool.false_eq_true,
        if_false, if_true]
      try rfl

/-- Variant 1's gate: whenever some named character has a generated but not
approved design, the build fails with a validation error naming exactly the
blocking characters, makes no AIGateway call, leaves the scene list
unchanged, and moves the phase to awaiting-approval. -/
theorem visualStory_gate_blocks (s0 : AppState1)
    (d : Except String (Option (List SceneResponse)))
    (img : Nat → Except String String)
    (hphase : (s0.currentPhase == GenerationPhase.ERROR) = false)
    (hstory : (jsTrim s0.storyText == "") = false)
    (hbad : unapprovedGateV1 s0.characters ≠ []) :
    (handleGenerateVisualStory s0 d img).calls = [] ∧
    (handleGenerateVisualStory s0 d img).finalState.scenes = s0.scenes ∧
    (handleGenerateVisualStory s0 d img).finalState.error =
      some ("Please approve or regenerate designs for all characters: " ++
        String.intercalate ", "
          ((unapprovedGateV1 s0.characters).map (fun c => c.name))) ∧
    (handleGenerateVisualStory s0 d img).finalState.currentPhase =
      GenerationPhase.AWAITING_CHARACTER_APPROVAL := by
  have hne : (unapprovedGateV1 s0.characters).isEmpty = false := by
    rw [List.isEmpty_eq_false]
    exact hbad
  have hcond : (!(unapprovedGateV1 s0.characters).isEmpty) = true := by
    rw [hne]
    rfl
  refine ⟨?_, ?_, ?_, ?_⟩ <;>
    · simp only [handleGenerateVisualStory, hphase, hstory, hcond,
        Bool.false_eq_true, if_false, if_true]
      try rfl

/-- C1 (amended): the two gates as implemented.  Variant 2
(`handleGenerateStoryboard`) rejects whenever any named character lacks an
approved design: generic validation error, no AIGateway call, scenes
unchanged, status Idle, view back to design review.  Variant 1
(`handleGenerateVisualStory`) rejects only when some character has a
generated-but-unapproved design: it names those characters in the error,
makes no call and leaves the scenes unchanged, but moves the phase to
awaiting-approval; a named character with neither a generated nor an
approved design does not block the build (see the counterexample). -/
theorem storyboardGate_spec :
    (∀ (s0 : AppState2) (d : Except String (Option (List SceneResponse)))
        (img : Nat → Except String String),
      apiKeyErrorActive s0 = false →
      ∀ c ∈ namedCharactersOf s0.characters,
        truthy c.approvedDesignUrl = false →
      (handleGenerateStoryboard s0 d img).calls = [] ∧
      (handleGenerateStoryboard s0 d img).finalState.scenes = s0.scenes ∧
      (handleGenerateStoryboard s0 d img).finalState.globalError =
        some "Please approve all named character designs before generating the storyboard." ∧
      (handleGenerateStoryboard s0 d img).finalState.operationStatus =
        OperationStatus.IDLE ∧
      (handleGenerateStoryboard s0 d img).finalState.currentView =
        AppView.characterDesignReview) ∧
    (∀ (s0 : AppState1) (d : Except String (Option (List SceneResponse)))
        (img : Nat → Except String String),
      (s0.currentPhase == GenerationPhase.ERROR) = false →
      (jsTrim s0.storyText == "") = false →
      unapprovedGateV1 s0.characters ≠ [] →
      (handleGenerateVisualStory s0 d img).calls = [] ∧
      (handleGenerateVisualStory s0 d img).finalState.scenes = s0.scenes ∧
      (handleGenerateVisualStory s0 d img).finalState.error =
        some ("Please approve or regenerate designs for all characters: " ++
          String.intercalate ", "
            ((unapprovedGateV1 s0.characters).map (fun c => c.name))) ∧
      (handleGenerateVisualStory s0 d img).finalState.currentPhase =
        GenerationPhase.AWAITING_CHARACTER_APPROVAL) := by
  constructor
  · intro s0 d img hapi c hc happ
    exact storyboard_gate_blocks s0 d img hapi c hc happ
  · intro s0 d img hphase hstory hbad
    exact visualStory_gate_blocks s0 d img hphase hstory hbad

/-- A named character carrying an unapproved generated design, for the C1
witness. -/
def arinGenerated : Character :=
  { id := 0, name := "Arin", generatedDesignUrl := some "data:image/png;base64,Z" }

/-- The variant-2 session for the C1 witness. -/
def gateW2State : AppState2 :=
  { currentView := .characterDesignReview, storyText := "s",
    characters := [arinGenerated], scenes := [] }

/-- The variant-1 session for the C1 witness. -/
def gateW1State : AppState1 :=
  { storyText := "s", characters := [arinGenerated] }

/-- C1 witness: both gates applied at a concrete blocked state — no AIGateway
call, scenes unchanged, validation error surfaced (naming "Arin" in
variant 1). -/
theorem storyboardGate_spec_witness :
    ((handleGenerateStoryboard gateW2State (Except.error "x")
        (fun _ => Except.ok "u")).calls = [] ∧
      (handleGenerateStoryboard gateW2State (Except.error "x")
        (fun _ => Except.ok "u")).finalState.scenes = gateW2State.scenes) ∧
    ((handleGenerateVisualStory gateW1State (Except.error "x")
        (fun _ => Except.ok "u")).calls = [] ∧
      (handleGenerateVisualStory gateW1State (Except.error "x")
        (fun _ => Except.ok "u")).finalState.error =
        some ("Please approve or regenerate designs for all characters: " ++
          String.intercalate ", "
            ((unapprovedGateV1 gateW1State.characters).map (fun c => c.name)))) := by
  obtain ⟨hcalls2, hscenes2, _, _, _⟩ := storyboardGate_spec.1 gateW2State
    (Except.error "x") (fun _ => Except.ok "u") (by decide) arinGenerated
    (by decide) (by decide)
  obtain ⟨hcalls1, _, herr1, _⟩ := storyboardGate_spec.2 gateW1State
    (Except.error "x") (fun _ => Except.ok "u") (by decide) (by decide)
    (by decide)
  exact ⟨⟨hcalls2, hscenes2⟩, ⟨hcalls1, herr1⟩⟩

/-! ## C6: partial-failure isolation and the completion phase -/

/-- The variant-1 session (phase Idle) for the C6 evaluation. -/
def c6State1 : AppState1 := { storyText := "s" }

/-- The variant-2 session for the C6 evaluation. -/
def c6State2 : AppState2 := { storyText := "s" }

/-- A three-scene deconstruction response for the C6 evaluation. -/
def threeScenes : List SceneResponse :=
  [{ sceneSummary := "one" }, { sceneSummary := "two" }, { sceneSummary := "three" }]

/-- The image oracle of the C6 evaluation: scene 2 (index 1) fails, the
others succeed. -/
def c6Img : Nat → Except String String :=
  fun i => if i == 1 then Except.error "E" else Except.ok "U"

/-- C6, evaluated at the failing input (three scenes, scene 2's image call
fails, run started from phase Idle).  Partial-failure isolation holds in both
variants: scenes 1 and 3 end with an image URL, scene 2 with a non-empty
image error, and no scene's failure aborts the loop; variant 2 ends in the
Success status.  But in variant 1 the phase only passes through `COMPLETE`
transiently: the `finally` block reads the stale captured phase (Idle) — its
comment says to reset only when "not an error or completion" — and overwrites
the just-set `COMPLETE` with `IDLE`, so the settled phase is not Complete. -/
theorem partialFailure_spec :
    ((handleGenerateVisualStory c6State1 (Except.ok (some threeScenes))
        c6Img).finalState.scenes.map (fun s => (s.imageUrl, s.imageError)) =
      [(some "U", none), (none, some "Failed to generate image: E"), (some "U", none)]) ∧
    GenerationPhase.COMPLETE ∈
      (handleGenerateVisualStory c6State1 (Except.ok (some threeScenes))
        c6Img).phaseTrace ∧
    (handleGenerateVisualStory c6State1 (Except.ok (some threeScenes))
        c6Img).finalState.currentPhase = GenerationPhase.IDLE ∧
    ((handleGenerateStoryboard c6State2 (Except.ok (some threeScenes))
        c6Img).finalState.scenes.map (fun s => (s.imageUrl, s.imageError)) =
      [(some "U", none), (none, some "E"), (some "U", none)]) ∧
    (handleGenerateStoryboard c6State2 (Except.ok (some threeScenes))
        c6Img).finalState.operationStatus = OperationStatus.SUCCESS := by
  decide
